import Mathlib

/-!
# brickd: the Linux entry point `src/brickd/main_linux.c`

A shallow embedding of `prepare_paths`, `print_usage`, `handle_sighup` and `main`.

* The preprocessor switches of the file are the fields of `Build`.
* Macros that come from headers outside the file (`SYSCONFDIR`, `LOCALSTATEDIR`,
  `VERSION_STRING`, `PID_FILE_ALREADY_ACQUIRED`) are the fields of `Consts`.
* Every collaborator whose body is outside the file (config, log, event, usb, ...) is
  represented by the value it returns, a field of `Outcomes`, and by the `Event` that
  records the call together with that value.
* A run of `main` is the list of events it performs plus the value it returns.
-/

namespace Brickd

/-! ## Build switches and header constants -/

/-- The `#ifdef` switches used inside `main`. -/
structure Build where
  with_libusb_dlopen : Bool
  with_libudev : Bool
  with_red_brick : Bool
  deriving DecidableEq, Repr

/-- Macros defined by headers that are not part of main_linux.c. -/
structure Consts where
  SYSCONFDIR : String
  LOCALSTATEDIR : String
  VERSION_STRING : String
  PID_FILE_ALREADY_ACQUIRED : Int
  deriving DecidableEq, Repr

/-- Value of `EXIT_SUCCESS` in stdlib.h. -/
def EXIT_SUCCESS : Int := 0

/-- Value of `EXIT_FAILURE` in stdlib.h. -/
def EXIT_FAILURE : Int := 1

/-- Value of `EEXIST` in errno.h on Linux. -/
def EEXIST : Int := 17

/-- Value of `ENOENT` in errno.h on Linux. -/
def ENOENT : Int := 2

/-! ## Events -/

/-- An argument handed to a collaborator or to a printf-like function. -/
inductive Arg where
  | str (s : String)
  | int (n : Int)
  | errno_name
  | errno
  | sym (name : String)
  deriving DecidableEq, Repr

/-- The functions called by main_linux.c whose bodies live elsewhere. -/
inductive Fn where
  | mkdir | stat
  | config_check | config_init | config_has_error | config_has_warning | config_exit
  | log_init | log_exit | log_enable_debug_override | log_set_output
  | file_destroy | file_create
  | daemon_start | pid_file_acquire | pid_file_release
  | libusb_init_dlopen | libusb_exit_dlopen
  | event_init | event_run | event_exit
  | signal_init | signal_exit
  | hardware_init | hardware_exit | hardware_announce_disconnect
  | usb_init | usb_has_hotplug | usb_exit
  | udev_init | udev_exit
  | network_init | network_exit | network_announce_red_brick_disconnect
  | mesh_init | mesh_exit
  | gpio_init
  | redapid_init | redapid_exit
  | red_stack_init | red_stack_exit
  | red_extension_init | red_extension_exit
  | red_usb_gadget_init | red_usb_gadget_exit | red_usb_gadget_announce_red_brick_disconnect
  | red_led_set_trigger
  deriving DecidableEq, Repr

/-- One observable action of the program.  `call f args r` is a call of `f` that
returned `r` (`none` for a `void` function); `query f b` is a call of a `bool` function. -/
inductive Event where
  | printf (fmt : String) (args : List Arg)
  | fprintf_stderr (fmt : String) (args : List Arg)
  | log_error (fmt : String) (args : List Arg)
  | log_warn (fmt : String) (args : List Arg)
  | log_info (fmt : String) (args : List Arg)
  | call (fn : Fn) (args : List Arg) (ret : Option Int)
  | query (fn : Fn) (ret : Bool)
  deriving DecidableEq, Repr

/-! ## The file-scope path buffers -/

/-- The three static buffers `_config_filename`, `_pid_filename`, `_log_filename`. -/
structure Paths where
  config_filename : String
  pid_filename : String
  log_filename : String
  deriving DecidableEq, Repr

/-- The initialisers of the three buffers. -/
def initial_paths (c : Consts) : Paths :=
  { config_filename := c.SYSCONFDIR ++ "/brickd.conf"
    pid_filename := c.LOCALSTATEDIR ++ "/run/brickd.pid"
    log_filename := c.LOCALSTATEDIR ++ "/log/brickd.log" }

/-! ## The operating-system environment seen by `prepare_paths` -/

/-- What the file system holds at one path, as far as `mkdir` and `stat` can tell. -/
inductive Entry where
  | absent
  | uncreatable (errno : Int)
  | dir
  | nondir
  | nostat (errno : Int)
  deriving DecidableEq, Repr

/-- The environment of `prepare_paths`: the user id, the value of `HOME` (`none` when
unset), the `pw_dir` of the account entry (`none` when `getpwuid` returns `NULL`) and
the file system. -/
structure Env where
  uid : Nat
  HOME : Option String
  pw_dir : Option String
  fs : String → Entry

/-- POSIX `mkdir`: `none` is success, `some e` is a return of -1 with `errno = e`.
An existing entry of any kind gives `EEXIST` and leaves the file system alone; an
absent entry becomes a directory; `uncreatable e` is a path at which creation fails
with `e` (missing parent, no permission, read-only file system, ...). -/
def mkdir (fs : String → Entry) (path : String) : Option Int × (String → Entry) :=
  match fs path with
  | .absent => (none, fun p => if p = path then .dir else fs p)
  | .uncreatable e => (some e, fs)
  | .dir => (some EEXIST, fs)
  | .nondir => (some EEXIST, fs)
  | .nostat _ => (some EEXIST, fs)

/-- POSIX `stat` followed by `S_ISDIR`: `.ok b` is success with `S_ISDIR(st_mode) = b`,
`.error e` is a return of -1 with `errno = e`. -/
def stat (fs : String → Entry) (path : String) : Except Int Bool :=
  match fs path with
  | .absent => .error ENOENT
  | .uncreatable e => .error e
  | .dir => .ok true
  | .nondir => .ok false
  | .nostat e => .error e

/-- Modelled from the spec: `robust_snprintf` of daemonlib is not in main_linux.c; the
spec names as its failure a path too long for the fixed-size buffer.  The result is
the return value and the new buffer content; on failure the buffer keeps what fits
(cut here at a character boundary). -/
def robust_snprintf (size : Nat) (formatted : String) : Int × String :=
  if formatted.utf8ByteSize < size then (0, formatted)
  else (-1, String.mk (formatted.data.take (size - 1)))

/-- The value of `home` after lines 78-91, `none` when `getpwuid` had to be asked and
returned `NULL`. -/
def resolve_home (env : Env) : Option String :=
  match env.HOME with
  | none => env.pw_dir
  | some h => if h = "" then env.pw_dir else some h

/-- Outcome of `prepare_paths`: return value, buffers, file system, events. -/
structure PrepareResult where
  rc : Int
  paths : Paths
  fs : String → Entry
  trace : List Event

/-- The function `prepare_paths` (lines 68-148). -/
def prepare_paths (env : Env) (paths : Paths) : PrepareResult :=
  if env.uid = 0 then
    { rc := 0, paths := paths, fs := env.fs, trace := [] }
  else
    match resolve_home env with
    | none =>
      { rc := -1, paths := paths, fs := env.fs
        trace := [.fprintf_stderr "Could not determine home directory: %s (%d)\n"
                    [.errno_name, .errno]] }
    | some home =>
      let brickd_dirname := robust_snprintf 1024 (home ++ "/.brickd")
      if brickd_dirname.1 < 0 then
        { rc := -1, paths := paths, fs := env.fs
          trace := [.fprintf_stderr "Could not format ~/.brickd directory name: %s (%d)\n"
                      [.errno_name, .errno]] }
      else
      let cf := robust_snprintf 1024 (home ++ "/.brickd/brickd.conf")
      let paths := { paths with config_filename := cf.2 }
      if cf.1 < 0 then
        { rc := -1, paths := paths, fs := env.fs
          trace := [.fprintf_stderr
                      "Could not format ~/.brickd/brickd.conf file name: %s (%d)\n"
                      [.errno_name, .errno]] }
      else
      let pf := robust_snprintf 1024 (home ++ "/.brickd/brickd.pid")
      let paths := { paths with pid_filename := pf.2 }
      if pf.1 < 0 then
        { rc := -1, paths := paths, fs := env.fs
          trace := [.fprintf_stderr
                      "Could not format ~/.brickd/brickd.pid file name: %s (%d)\n"
                      [.errno_name, .errno]] }
      else
      let lf := robust_snprintf 1024 (home ++ "/.brickd/brickd.log")
      let paths := { paths with log_filename := lf.2 }
      if lf.1 < 0 then
        { rc := -1, paths := paths, fs := env.fs
          trace := [.fprintf_stderr
                      "Could not format ~/.brickd/brickd.log file name: %s (%d)\n"
                      [.errno_name, .errno]] }
      else
      let made := mkdir env.fs brickd_dirname.2
      match made.1 with
      | none =>
        { rc := 0, paths := paths, fs := made.2
          trace := [.call .mkdir [.str brickd_dirname.2, .int 0o755] (some 0)] }
      | some e =>
        let t := [Event.call .mkdir [.str brickd_dirname.2, .int 0o755] (some (-1))]
        if e ≠ EEXIST then
          { rc := -1, paths := paths, fs := made.2
            trace := t ++ [.fprintf_stderr "Could not create directory '%s': %s (%d)\n"
                             [.str brickd_dirname.2, .errno_name, .errno]] }
        else
          match stat made.2 brickd_dirname.2 with
          | .error _ =>
            { rc := -1, paths := paths, fs := made.2
              trace := t ++ [.call .stat [.str brickd_dirname.2] (some (-1)),
                             .fprintf_stderr "Could not get information for '%s': %s (%d)\n"
                               [.str brickd_dirname.2, .errno_name, .errno]] }
          | .ok is_dir =>
            let t := t ++ [.call .stat [.str brickd_dirname.2] (some 0)]
            if ¬ is_dir then
              { rc := -1, paths := paths, fs := made.2
                trace := t ++ [.fprintf_stderr "Expecting '%s' to be a directory\n"
                                 [.str brickd_dirname.2]] }
            else
              { rc := 0, paths := paths, fs := made.2, trace := t }

/-! ## Usage text -/

/-- The text printed by `print_usage` (lines 150-160). -/
def usage_text : String :=
  "Usage:\n" ++
  "  brickd [--help|--version|--check-config|--daemon] [--debug [<filter>]]\n" ++
  "\n" ++
  "Options:\n" ++
  "  --help              Show this help\n" ++
  "  --version           Show version number\n" ++
  "  --check-config      Check config file for errors\n" ++
  "  --daemon            Run as daemon and write PID and log file\n" ++
  "  --debug [<filter>]  Set log level to debug and apply optional filter\n"

/-- The function `print_usage`: one `printf`, that is, standard output. -/
def print_usage : List Event := [.printf usage_text []]

/-! ## The SIGHUP handler -/

/-- The log outputs that `log_get_output` can return. -/
inductive LogOutput where
  | log_stderr_output
  | log_file_base
  | other (id : Nat)
  deriving DecidableEq, Repr

/-- Flags of `file_create`. -/
inductive OpenFlag where
  | O_CREAT | O_WRONLY | O_APPEND | O_TRUNC
  deriving DecidableEq, Repr

/-- State of the object `_log_file`. -/
inductive FileState where
  | unused
  | created (name : String) (flags : List OpenFlag) (mode : Nat)
  | destroyed
  deriving DecidableEq, Repr

/-- The state touched by `handle_sighup`: the current log output and `_log_file`. -/
structure LogState where
  output : LogOutput
  log_file : FileState
  deriving DecidableEq, Repr

/-- The function `handle_sighup` (lines 162-182); `file_create_rc` is what `file_create`
returns if it is called. -/
def handle_sighup (log_filename : String) (file_create_rc : Int) (s : LogState) :
    LogState × List Event :=
  if s.output ≠ .log_file_base then
    (s, [])
  else
    let s := { s with output := .log_stderr_output }
    let t := [Event.call .log_set_output [.sym "log_stderr_output"] none]
    let s := { s with log_file := .destroyed }
    let t := t ++ [.call .file_destroy [.sym "_log_file"] none]
    let t := t ++ [.call .file_create [.sym "_log_file", .str log_filename,
                      .sym "O_CREAT | O_WRONLY | O_APPEND", .int 0o644] (some file_create_rc)]
    if file_create_rc < 0 then
      (s, t ++ [.log_error "Could not reopen log file '%s': %s (%d)"
                  [.str log_filename, .errno_name, .errno]])
    else
      let s := { s with log_file := .created log_filename [.O_CREAT, .O_WRONLY, .O_APPEND] 0o644 }
      let s := { s with output := .log_file_base }
      let t := t ++ [.call .log_set_output [.sym "_log_file.base"] none]
      (s, t ++ [.log_info "Reopened log file '%s'" [.str log_filename]])

/-! ## Argument parsing -/

/-- The local variables of `main` set by the argument loop. -/
structure Flags where
  help : Bool
  version : Bool
  check_config : Bool
  daemon : Bool
  debug_filter : Option String
  deriving DecidableEq, Repr

/-- The initial values of those variables (lines 201-205). -/
def initial_flags : Flags :=
  { help := false, version := false, check_config := false, daemon := false,
    debug_filter := none }

/-- C `strncmp(s, "--", 2) != 0`. -/
def strncmp_dashdash_ne (s : String) : Bool :=
  decide (s.data.take 2 ≠ ['-', '-'])

/-- The loop of lines 211-232 over the arguments from `argv[i]` on: `.error a` when the
unknown option `a` is met, otherwise the flags at the end. -/
def parse_args : List String → Flags → Except String Flags
  | [], f => .ok f
  | a :: rest, f =>
    if a = "--help" then parse_args rest { f with help := true }
    else if a = "--version" then parse_args rest { f with version := true }
    else if a = "--check-config" then parse_args rest { f with check_config := true }
    else if a = "--daemon" then parse_args rest { f with daemon := true }
    else if a = "--debug" then
      match rest with
      | [] => .ok { f with debug_filter := some "" }
      | nxt :: rest2 =>
        if strncmp_dashdash_ne nxt then
          parse_args rest2 { f with debug_filter := some nxt }
        else
          parse_args (nxt :: rest2) { f with debug_filter := some "" }
    else .error a
termination_by args => args.length

/-! ## main -/

/-- Return values of the collaborators called by `main`; `pid` is `getpid()`. -/
structure Outcomes where
  pid : Int
  config_check : Int
  config_has_error : Bool
  config_has_warning : Bool
  daemon_start : Int
  pid_file_acquire : Int
  libusb_init_dlopen : Int
  event_init : Int
  signal_init : Int
  hardware_init : Int
  usb_init : Int
  usb_has_hotplug : Bool
  udev_init : Int
  network_init : Int
  mesh_init : Int
  gpio_init : Int
  redapid_init : Int
  red_stack_init : Int
  red_extension_init : Int
  red_usb_gadget_init : Int
  event_run : Int

/-- Where `main` stands when it leaves lines 197-398: either it has returned
(`at_cleanup = false`) or control is at the label `cleanup` with the given values of
the local variables `phase`, `exit_code`, `pid_fd`, `initialized_udev`. -/
structure Startup where
  trace : List Event
  exit_code : Int
  at_cleanup : Bool
  phase : Nat
  pid_fd : Int
  initialized_udev : Bool
  paths : Paths
  deriving DecidableEq, Repr

/-- A `return` before line 254: `phase`, `pid_fd` still hold their initialisers. -/
def returned (t : List Event) (exit_code : Int) (paths : Paths) : Startup :=
  { trace := t, exit_code := exit_code, at_cleanup := false, phase := 0, pid_fd := -1,
    initialized_udev := false, paths := paths }

/-- Arrival at the label `cleanup` (line 400). -/
def at_label_cleanup (t : List Event) (exit_code : Int) (phase : Nat) (pid_fd : Int)
    (initialized_udev : Bool) (paths : Paths) : Startup :=
  { trace := t, exit_code := exit_code, at_cleanup := true, phase := phase, pid_fd := pid_fd,
    initialized_udev := initialized_udev, paths := paths }

/-- Call of an `int` function without arguments. -/
def call0 (fn : Fn) (rc : Int) : Event := .call fn [] (some rc)

/-- Call of a `void` function without arguments. -/
def callv (fn : Fn) : Event := .call fn [] none

/-- Lines 388-398: `event_run` and what follows it up to the label `cleanup`. -/
def main_event_loop (b : Build) (o : Outcomes) (paths : Paths) (pid_fd : Int)
    (initialized_udev : Bool) (phase : Nat) (t : List Event) : Startup :=
  let t := t ++ [.call .event_run [.sym "handle_event_cleanup"] (some o.event_run)]
  if o.event_run < 0 then
    at_label_cleanup t EXIT_FAILURE phase pid_fd initialized_udev paths
  else
    let t := t ++
      (if b.with_red_brick then
        [callv .hardware_announce_disconnect,
         callv .network_announce_red_brick_disconnect,
         callv .red_usb_gadget_announce_red_brick_disconnect]
       else [])
    at_label_cleanup t EXIT_SUCCESS phase pid_fd initialized_udev paths

/-- Lines 353-386, compiled only with `BRICKD_WITH_RED_BRICK`. -/
def main_red_brick (b : Build) (o : Outcomes) (paths : Paths) (pid_fd : Int)
    (initialized_udev : Bool) (t : List Event) : Startup :=
  let t := t ++ [call0 .gpio_init o.gpio_init]
  if o.gpio_init < 0 then
    at_label_cleanup t EXIT_FAILURE 11 pid_fd initialized_udev paths
  else
  let t := t ++ [call0 .redapid_init o.redapid_init]
  if o.redapid_init < 0 then
    at_label_cleanup t EXIT_FAILURE 12 pid_fd initialized_udev paths
  else
  let t := t ++ [call0 .red_stack_init o.red_stack_init]
  if o.red_stack_init < 0 then
    at_label_cleanup t EXIT_FAILURE 13 pid_fd initialized_udev paths
  else
  let t := t ++ [call0 .red_extension_init o.red_extension_init]
  if o.red_extension_init < 0 then
    at_label_cleanup t EXIT_FAILURE 14 pid_fd initialized_udev paths
  else
  let t := t ++ [call0 .red_usb_gadget_init o.red_usb_gadget_init]
  if o.red_usb_gadget_init < 0 then
    at_label_cleanup t EXIT_FAILURE 15 pid_fd initialized_udev paths
  else
  let t := t ++
    [.call .red_led_set_trigger [.sym "RED_LED_GREEN", .str "led_trigger.green"] none,
     .call .red_led_set_trigger [.sym "RED_LED_RED", .str "led_trigger.red"] none]
  main_event_loop b o paths pid_fd initialized_udev 16 t

/-- Lines 341-351: `network_init` and `mesh_init`; `phase` is 9 or 8 on entry. -/
def main_network (b : Build) (o : Outcomes) (paths : Paths) (pid_fd : Int)
    (initialized_udev : Bool) (phase : Nat) (t : List Event) : Startup :=
  let t := t ++ [call0 .network_init o.network_init]
  if o.network_init < 0 then
    at_label_cleanup t EXIT_FAILURE phase pid_fd initialized_udev paths
  else
  let t := t ++ [call0 .mesh_init o.mesh_init]
  if o.mesh_init < 0 then
    at_label_cleanup t EXIT_FAILURE 10 pid_fd initialized_udev paths
  else
  if b.with_red_brick then main_red_brick b o paths pid_fd initialized_udev t
  else main_event_loop b o paths pid_fd initialized_udev 11 t

/-- Lines 329-339: the udev fallback, compiled only with `BRICKD_WITH_LIBUDEV`. -/
def main_udev (b : Build) (o : Outcomes) (paths : Paths) (pid_fd : Int)
    (t : List Event) : Startup :=
  if b.with_libudev then
    let t := t ++ [.query .usb_has_hotplug o.usb_has_hotplug]
    if ¬ o.usb_has_hotplug then
      let t := t ++ [call0 .udev_init o.udev_init]
      if o.udev_init < 0 then at_label_cleanup t EXIT_FAILURE 8 pid_fd false paths
      else main_network b o paths pid_fd true 9 t
    else main_network b o paths pid_fd false 9 t
  else main_network b o paths pid_fd false 8 t

/-- Lines 305-327: `event_init`, `signal_init`, `hardware_init`, `usb_init`; `phase` is
4 or 3 on entry. -/
def main_subsystems (b : Build) (o : Outcomes) (paths : Paths) (pid_fd : Int)
    (phase : Nat) (t : List Event) : Startup :=
  let t := t ++ [call0 .event_init o.event_init]
  if o.event_init < 0 then at_label_cleanup t EXIT_FAILURE phase pid_fd false paths else
  let t := t ++ [.call .signal_init [.sym "handle_sighup", .sym "handle_sigusr1"]
                   (some o.signal_init)]
  if o.signal_init < 0 then at_label_cleanup t EXIT_FAILURE 5 pid_fd false paths else
  let t := t ++ [call0 .hardware_init o.hardware_init]
  if o.hardware_init < 0 then at_label_cleanup t EXIT_FAILURE 6 pid_fd false paths else
  let t := t ++ [call0 .usb_init o.usb_init]
  if o.usb_init < 0 then at_label_cleanup t EXIT_FAILURE 7 pid_fd false paths else
  main_udev b o paths pid_fd t

/-- Lines 297-303: loading libusb, compiled only with `BRICKD_WITH_LIBUSB_DLOPEN`. -/
def main_dlopen (b : Build) (o : Outcomes) (paths : Paths) (pid_fd : Int)
    (t : List Event) : Startup :=
  if b.with_libusb_dlopen then
    let t := t ++ [call0 .libusb_init_dlopen o.libusb_init_dlopen]
    if o.libusb_init_dlopen < 0 then at_label_cleanup t EXIT_FAILURE 3 pid_fd false paths
    else main_subsystems b o paths pid_fd 4 t
  else main_subsystems b o paths pid_fd 3 t

/-- The value given to `pid_fd` by lines 267-275. -/
def lock_fd (o : Outcomes) (f : Flags) : Int :=
  if f.daemon then o.daemon_start else o.pid_file_acquire

/-- The events of lines 265-275: `log_init`, then `daemon_start` in daemon mode, else
`pid_file_acquire` and, on `PID_FILE_ALREADY_ACQUIRED`, the message on standard error. -/
def lock_events (c : Consts) (o : Outcomes) (paths : Paths) (f : Flags) : List Event :=
  [callv .log_init] ++
  (if f.daemon then
    [.call .daemon_start [.str paths.log_filename, .sym "_log_file",
       .str paths.pid_filename, .int 1] (some o.daemon_start)]
   else
    [.call .pid_file_acquire [.str paths.pid_filename, .int o.pid]
       (some o.pid_file_acquire)] ++
    (if o.pid_file_acquire = c.PID_FILE_ALREADY_ACQUIRED then
      [.fprintf_stderr "Already running according to '%s'\n" [.str paths.pid_filename]]
     else []))

/-- The events of lines 283-295: the start banner, the debug override, the warning
about the config file. -/
def banner_events (c : Consts) (o : Outcomes) (paths : Paths) (f : Flags) : List Event :=
  [.log_info "Brick Daemon %s started (pid: %u, daemonized: %d)"
     [.str c.VERSION_STRING, .int o.pid, .int (if f.daemon then 1 else 0)]] ++
  (match f.debug_filter with
   | some filter => [.call .log_enable_debug_override [.str filter] none]
   | none => []) ++
  [.query .config_has_warning o.config_has_warning] ++
  (if o.config_has_warning then
    [.log_warn "Warning(s) in config file '%s', run with --check-config option for details"
       [.str paths.config_filename]]
   else [])

/-- Lines 254-398 of `main`: from `config_init` to the label `cleanup`; `t` holds the
events before line 254. -/
def main_run (b : Build) (c : Consts) (o : Outcomes) (paths : Paths) (f : Flags)
    (t : List Event) : Startup :=
  let t := t ++ [.call .config_init [.str paths.config_filename] none,
                 .query .config_has_error o.config_has_error]
  if o.config_has_error then
    at_label_cleanup
      (t ++ [.fprintf_stderr "Error(s) occurred while reading config file '%s'\n"
               [.str paths.config_filename]])
      EXIT_FAILURE 1 (-1) false paths
  else
  let t := t ++ lock_events c o paths f
  if lock_fd o f < 0 then at_label_cleanup t EXIT_FAILURE 2 (lock_fd o f) false paths else
  let t := t ++ banner_events c o paths f
  main_dlopen b o paths (lock_fd o f) t

/-- Lines 234-398 of `main`: what follows the argument loop when it ended with the
flags `f`. -/
def main_after_args (b : Build) (c : Consts) (env : Env) (o : Outcomes) (f : Flags) :
    Startup :=
  if f.help then returned print_usage EXIT_SUCCESS (initial_paths c)
  else if f.version then
    returned [.printf "%s\n" [.str c.VERSION_STRING]] EXIT_SUCCESS (initial_paths c)
  else
    let pp := prepare_paths env (initial_paths c)
    if pp.rc < 0 then returned pp.trace EXIT_FAILURE pp.paths
    else if f.check_config then
      returned
        (pp.trace ++
          [.call .config_check [.str pp.paths.config_filename] (some o.config_check)])
        (if o.config_check < 0 then EXIT_FAILURE else EXIT_SUCCESS) pp.paths
    else main_run b c o pp.paths f pp.trace

/-- Lines 197-398 of `main`: the argument loop, which starts at `argv[1]` and returns
at once on an unknown option, then `main_after_args`. -/
def main_startup (b : Build) (c : Consts) (argv : List String) (env : Env)
    (o : Outcomes) : Startup :=
  match parse_args (argv.tail) initial_flags with
  | .error a =>
    returned ([.fprintf_stderr "Unknown option '%s'\n\n" [.str a]] ++ print_usage)
      EXIT_FAILURE (initial_paths c)
  | .ok f => main_after_args b c env o f

/-- The statement under `case 9`: `udev_exit` is called only if `initialized_udev`. -/
def udev_exit_events (initialized_udev : Bool) : List Event :=
  if initialized_udev then [callv .udev_exit] else []

/-- The first statement under `case 2`: `pid_file_release` is called only if
`pid_fd >= 0`. -/
def pid_release_events (pid_filename : String) (pid_fd : Int) : List Event :=
  if pid_fd ≥ 0 then [.call .pid_file_release [.str pid_filename, .int pid_fd] none] else []

/-- The `case` labels of the cleanup switch (lines 401-464) in source order, each with
the calls made by the statements that stand between it and the next label. -/
def cleanup_cases (b : Build) (c : Consts) (pid_filename : String) (pid_fd : Int)
    (initialized_udev : Bool) : List (Nat × List Event) :=
  (if b.with_red_brick then
    [(16, [callv .red_usb_gadget_exit]),
     (15, [callv .red_extension_exit]),
     (14, [callv .red_stack_exit]),
     (13, [callv .redapid_exit]),
     (12, [])]
   else []) ++
  [(11, [callv .mesh_exit]),
   (10, [callv .network_exit])] ++
  (if b.with_libudev then
    [(9, udev_exit_events initialized_udev)]
   else []) ++
  [(8, [callv .usb_exit]),
   (7, [callv .hardware_exit]),
   (6, [callv .signal_exit]),
   (5, [callv .event_exit])] ++
  (if b.with_libusb_dlopen then [(4, [callv .libusb_exit_dlopen])] else []) ++
  [(3, [.log_info "Brick Daemon %s stopped" [.str c.VERSION_STRING]]),
   (2, pid_release_events pid_filename pid_fd ++ [callv .log_exit]),
   (1, [callv .config_exit])]

/-- C `switch` without `break`: control enters at the first label equal to `phase` and
runs every case from there to the end; with no such label it takes `default: break`. -/
def switch_from (phase : Nat) : List (Nat × List Event) → List (Nat × List Event)
  | [] => []
  | cs :: rest => if cs.1 = phase then cs :: rest else switch_from phase rest

/-- The cases executed by the cleanup switch from the state `s`. -/
def cleanup_executed (b : Build) (c : Consts) (s : Startup) : List (Nat × List Event) :=
  switch_from s.phase (cleanup_cases b c s.paths.pid_filename s.pid_fd s.initialized_udev)

/-- The events of lines 400-464. -/
def cleanup (b : Build) (c : Consts) (s : Startup) : List Event :=
  ((cleanup_executed b c s).map Prod.snd).flatten

/-- What a run of `main` shows: its events and its return value. -/
structure Result where
  exit_code : Int
  trace : List Event
  deriving DecidableEq, Repr

/-- The function `main` (lines 197-467). -/
def main (b : Build) (c : Consts) (argv : List String) (env : Env) (o : Outcomes) : Result :=
  let s := main_startup b c argv env o
  { exit_code := s.exit_code
    trace := s.trace ++ (if s.at_cleanup then cleanup b c s else []) }

/-! ## Vocabulary of the statements and sample inputs -/

/-- The events that are neither a lock acquisition, nor a subsystem start, nor a
teardown action, nor a log line: printing, the `mkdir` and `stat` of `prepare_paths`,
and `config_check`. -/
def Event.is_passive : Event → Bool
  | .printf _ _ => true
  | .fprintf_stderr _ _ => true
  | .call .mkdir _ _ => true
  | .call .stat _ _ => true
  | .call .config_check _ _ => true
  | _ => false

/-- The lock, init and teardown functions of `main`. -/
def lifecycle_fns : List Fn :=
  [.pid_file_acquire, .daemon_start, .pid_file_release, .config_init, .config_exit,
   .log_init, .log_exit, .libusb_init_dlopen, .libusb_exit_dlopen, .event_init, .event_run,
   .event_exit, .signal_init, .signal_exit, .hardware_init, .hardware_exit, .usb_init,
   .usb_exit, .udev_init, .udev_exit, .network_init, .network_exit, .mesh_init, .mesh_exit,
   .gpio_init, .redapid_init, .redapid_exit, .red_stack_init, .red_stack_exit,
   .red_extension_init, .red_extension_exit, .red_usb_gadget_init, .red_usb_gadget_exit]

/-- A build without optional parts. -/
def plain_build : Build :=
  { with_libusb_dlopen := false, with_libudev := false, with_red_brick := false }

/-- A build with every optional part. -/
def full_build : Build :=
  { with_libusb_dlopen := true, with_libudev := true, with_red_brick := true }

/-- Header constants of a usual installation. -/
def sample_consts : Consts :=
  { SYSCONFDIR := "/etc", LOCALSTATEDIR := "/var", VERSION_STRING := "2.3.0",
    PID_FILE_ALREADY_ACQUIRED := -2 }

/-- Environment of a run as root. -/
def root_env : Env :=
  { uid := 0, HOME := some "/root", pw_dir := some "/root", fs := fun _ => .absent }

/-- Every collaborator succeeds; the lock descriptor is 3. -/
def all_ok : Outcomes :=
  { pid := 100, config_check := 0, config_has_error := false, config_has_warning := false,
    daemon_start := 3, pid_file_acquire := 3, libusb_init_dlopen := 0, event_init := 0,
    signal_init := 0, hardware_init := 0, usb_init := 0, usb_has_hotplug := true,
    udev_init := 0, network_init := 0, mesh_init := 0, gpio_init := 0, redapid_init := 0,
    red_stack_init := 0, red_extension_init := 0, red_usb_gadget_init := 0, event_run := 0 }

/-! ## Closed forms of the prefixes of a run -/

/-- Events of lines 297-303. -/
def dlopen_events (b : Build) (o : Outcomes) : List Event :=
  if b.with_libusb_dlopen then [call0 .libusb_init_dlopen o.libusb_init_dlopen] else []

/-- Events of lines 305-327 when all four calls are made. -/
def subsystem_events (o : Outcomes) : List Event :=
  [call0 .event_init o.event_init,
   .call .signal_init [.sym "handle_sighup", .sym "handle_sigusr1"] (some o.signal_init),
   call0 .hardware_init o.hardware_init,
   call0 .usb_init o.usb_init]

/-- Events of lines 329-339. -/
def udev_events (b : Build) (o : Outcomes) : List Event :=
  if b.with_libudev then
    Event.query .usb_has_hotplug o.usb_has_hotplug ::
      (if o.usb_has_hotplug then [] else [call0 .udev_init o.udev_init])
  else []

/-- Events of lines 354-378 when all five calls are made. -/
def red_brick_events (o : Outcomes) : List Event :=
  [call0 .gpio_init o.gpio_init,
   call0 .redapid_init o.redapid_init,
   call0 .red_stack_init o.red_stack_init,
   call0 .red_extension_init o.red_extension_init,
   call0 .red_usb_gadget_init o.red_usb_gadget_init]

/-- Events of lines 384-385. -/
def led_events : List Event :=
  [.call .red_led_set_trigger [.sym "RED_LED_GREEN", .str "led_trigger.green"] none,
   .call .red_led_set_trigger [.sym "RED_LED_RED", .str "led_trigger.red"] none]

/-- Events of lines 393-395. -/
def announce_events : List Event :=
  [callv .hardware_announce_disconnect,
   callv .network_announce_red_brick_disconnect,
   callv .red_usb_gadget_announce_red_brick_disconnect]

/-- The call of `event_run`. -/
def event_run_event (o : Outcomes) : Event :=
  .call .event_run [.sym "handle_event_cleanup"] (some o.event_run)

/-- Events up to and including the lock acquisition. -/
def trace_lock (c : Consts) (o : Outcomes) (paths : Paths) (f : Flags) (t : List Event) :
    List Event :=
  t ++ [.call .config_init [.str paths.config_filename] none,
        .query .config_has_error o.config_has_error] ++ lock_events c o paths f

/-- Events up to the point before `event_init`. -/
def trace_dlopen (b : Build) (c : Consts) (o : Outcomes) (paths : Paths) (f : Flags)
    (t : List Event) : List Event :=
  trace_lock c o paths f t ++ banner_events c o paths f ++ dlopen_events b o

/-- Events up to the point before `network_init`. -/
def trace_udev (b : Build) (c : Consts) (o : Outcomes) (paths : Paths) (f : Flags)
    (t : List Event) : List Event :=
  trace_dlopen b c o paths f t ++ subsystem_events o ++ udev_events b o

/-- Events up to and including `mesh_init`. -/
def trace_mesh (b : Build) (c : Consts) (o : Outcomes) (paths : Paths) (f : Flags)
    (t : List Event) : List Event :=
  trace_udev b c o paths f t ++ [call0 .network_init o.network_init, call0 .mesh_init o.mesh_init]

/-- No failure up to the point before `event_init`. -/
def ok_dlopen (b : Build) (o : Outcomes) (f : Flags) : Prop :=
  o.config_has_error = false ∧ ¬ lock_fd o f < 0 ∧
    (b.with_libusb_dlopen = true → ¬ o.libusb_init_dlopen < 0)

/-- No failure up to the point before `network_init`. -/
def ok_udev (b : Build) (o : Outcomes) (f : Flags) : Prop :=
  ok_dlopen b o f ∧ ¬ o.event_init < 0 ∧ ¬ o.signal_init < 0 ∧ ¬ o.hardware_init < 0 ∧
    ¬ o.usb_init < 0 ∧
    (b.with_libudev = true → o.usb_has_hotplug = false → ¬ o.udev_init < 0)

/-- No failure up to and including `mesh_init`. -/
def ok_mesh (b : Build) (o : Outcomes) (f : Flags) : Prop :=
  ok_udev b o f ∧ ¬ o.network_init < 0 ∧ ¬ o.mesh_init < 0

/-- The value of `initialized_udev` after lines 329-339. -/
def udev_flag (b : Build) (o : Outcomes) : Bool :=
  b.with_libudev && !o.usb_has_hotplug

/-! ## Observations on a trace -/

/-- The eight subsystems whose init and exit calls are paired in `main`. -/
inductive Subsystem where
  | config | log | event | signal | hardware | usb | network | mesh
  deriving DecidableEq, Repr

/-- The subsystem started by an event: an init call that returned without failure
(`config_init` and `log_init` return nothing and always complete). -/
def init_done : Event → Option Subsystem
  | .call .config_init _ _ => some .config
  | .call .log_init _ _ => some .log
  | .call .event_init _ (some rc) => if rc < 0 then none else some .event
  | .call .signal_init _ (some rc) => if rc < 0 then none else some .signal
  | .call .hardware_init _ (some rc) => if rc < 0 then none else some .hardware
  | .call .usb_init _ (some rc) => if rc < 0 then none else some .usb
  | .call .network_init _ (some rc) => if rc < 0 then none else some .network
  | .call .mesh_init _ (some rc) => if rc < 0 then none else some .mesh
  | _ => none

/-- The subsystem torn down by an event. -/
def exit_call : Event → Option Subsystem
  | .call .config_exit _ _ => some .config
  | .call .log_exit _ _ => some .log
  | .call .event_exit _ _ => some .event
  | .call .signal_exit _ _ => some .signal
  | .call .hardware_exit _ _ => some .hardware
  | .call .usb_exit _ _ => some .usb
  | .call .network_exit _ _ => some .network
  | .call .mesh_exit _ _ => some .mesh
  | _ => none

/-- The descriptor returned by the lock-acquisition step, if the event is that step. -/
def lock_result : Event → Option Int
  | .call .pid_file_acquire _ (some fd) => some fd
  | .call .daemon_start _ (some fd) => some fd
  | _ => none

/-- The arguments of a call of `pid_file_release`. -/
def release_args : Event → Option (List Arg)
  | .call .pid_file_release args _ => some args
  | _ => none

/-- The events of `prepare_paths`: `mkdir`, `stat` and messages on standard error. -/
def Event.is_path_event : Event → Bool
  | .fprintf_stderr _ _ => true
  | .call .mkdir _ _ => true
  | .call .stat _ _ => true
  | _ => false

/-- The value returned by an event if it is a call of `fn`. -/
def result_of (fn : Fn) : Event → Option Int
  | .call g _ (some rc) => if g = fn then some rc else none
  | _ => none

/-- The events of the cleanup switch: the exit calls, `pid_file_release` and the log
line of `case 3`. -/
def Event.is_teardown : Event → Bool
  | .log_info _ _ => true
  | .call .red_usb_gadget_exit _ none => true
  | .call .red_extension_exit _ none => true
  | .call .red_stack_exit _ none => true
  | .call .redapid_exit _ none => true
  | .call .mesh_exit _ none => true
  | .call .network_exit _ none => true
  | .call .udev_exit _ none => true
  | .call .usb_exit _ none => true
  | .call .hardware_exit _ none => true
  | .call .signal_exit _ none => true
  | .call .event_exit _ none => true
  | .call .libusb_exit_dlopen _ none => true
  | .call .pid_file_release _ none => true
  | .call .log_exit _ none => true
  | .call .config_exit _ none => true
  | _ => false

/-- The label of the cleanup case that holds the exit call of a subsystem. -/
def Subsystem.teardown_label : Subsystem → Nat
  | .mesh => 11
  | .network => 10
  | .usb => 8
  | .hardware => 7
  | .signal => 6
  | .event => 5
  | .log => 2
  | .config => 1

/-- The subsystems in teardown order. -/
def teardown_order : List Subsystem :=
  [.mesh, .network, .usb, .hardware, .signal, .event, .log, .config]

/-- The subsystems torn down by the cases with a label of at most `phase`. -/
def exits_upto (phase : Nat) : List Subsystem :=
  teardown_order.filter (fun s => decide (s.teardown_label ≤ phase))

/-! ## Calling `prepare_paths` twice -/

/-- A second call of `prepare_paths`, made after a first one with the environment
otherwise unchanged: same user, same `HOME`, same account entry, the file system and
the path buffers as the first call left them. -/
def prepare_paths_again (env : Env) (paths : Paths) : PrepareResult :=
  prepare_paths { env with fs := (prepare_paths env paths).fs } (prepare_paths env paths).paths

/-- An unprivileged user whose home directory has no `.brickd` yet. -/
def user_env : Env :=
  { uid := 1000, HOME := some "/home/u", pw_dir := some "/home/u", fs := fun _ => .absent }

/-- The root user, with a regular file at `/root/.brickd`. -/
def root_env_with_file : Env :=
  { uid := 0, HOME := some "/root", pw_dir := some "/root"
    fs := fun p => if p = "/root/.brickd" then .nondir else .absent }

theorem strncmp_dashdash_ne_known (nxt : String) (h : strncmp_dashdash_ne nxt = true) :
    nxt ≠ "--help" ∧ nxt ≠ "--version" ∧ nxt ≠ "--check-config" ∧ nxt ≠ "--daemon" := by
  refine ⟨?_, ?_, ?_, ?_⟩ <;> rintro rfl <;> simp [strncmp_dashdash_ne] at h

theorem parse_args_flags (args : List String) (f g : Flags)
    (h : parse_args args f = .ok g) :
    g.help = (f.help || decide ("--help" ∈ args)) ∧
    g.version = (f.version || decide ("--version" ∈ args)) ∧
    g.check_config = (f.check_config || decide ("--check-config" ∈ args)) ∧
    g.daemon = (f.daemon || decide ("--daemon" ∈ args)) := by
  induction args, f using parse_args.induct with
  | case1 f => simp [parse_args] at h; simp [← h]
  | case2 rest f ih =>
    rw [parse_args.eq_def] at h
    simp at h
    simpa using ih h
  | case3 rest f _ ih =>
    rw [parse_args.eq_def] at h
    simp at h
    simpa using ih h
  | case4 rest f _ _ ih =>
    rw [parse_args.eq_def] at h
    simp at h
    simpa using ih h
  | case5 rest f _ _ _ ih =>
    rw [parse_args.eq_def] at h
    simp at h
    simpa using ih h
  | case6 f _ _ _ _ =>
    simp [parse_args] at h
    simp [← h]
  | case7 f nxt rest2 hn _ _ _ _ ih =>
    rw [parse_args.eq_def] at h
    simp [hn] at h
    obtain ⟨h1, h2, h3, h4⟩ := strncmp_dashdash_ne_known nxt hn
    have := ih h
    simpa [Ne.symm h1, Ne.symm h2, Ne.symm h3, Ne.symm h4] using this
  | case8 f nxt rest2 hn _ _ _ _ ih =>
    rw [parse_args.eq_def] at h
    simp [hn] at h
    simpa using ih h
  | case9 a rest f h1 h2 h3 h4 h5 =>
    rw [parse_args.eq_def] at h
    simp [h1, h2, h3, h4, h5] at h

theorem parse_args_error (args : List String) (f : Flags) (a : String)
    (h : parse_args args f = .error a) :
    a ∈ args ∧ a ≠ "--help" ∧ a ≠ "--version" ∧ a ≠ "--check-config" ∧ a ≠ "--daemon" ∧
      a ≠ "--debug" := by
  induction args, f using parse_args.induct with
  | case1 f => simp [parse_args] at h
  | case2 rest f ih =>
    rw [parse_args.eq_def] at h
    simp at h
    have := ih h
    simp [this]
  | case3 rest f _ ih =>
    rw [parse_args.eq_def] at h
    simp at h
    have := ih h
    simp [this]
  | case4 rest f _ _ ih =>
    rw [parse_args.eq_def] at h
    simp at h
    have := ih h
    simp [this]
  | case5 rest f _ _ _ ih =>
    rw [parse_args.eq_def] at h
    simp at h
    have := ih h
    simp [this]
  | case6 f _ _ _ _ =>
    simp [parse_args] at h
  | case7 f nxt rest2 hn _ _ _ _ ih =>
    rw [parse_args.eq_def] at h
    simp [hn] at h
    have := ih h
    simp [this]
  | case8 f nxt rest2 hn _ _ _ _ ih =>
    rw [parse_args.eq_def] at h
    simp [hn] at h
    have := ih h
    simp at this
    simp [this]
  | case9 a rest f h1 h2 h3 h4 h5 =>
    rw [parse_args.eq_def] at h
    simp [h1, h2, h3, h4, h5] at h
    subst h
    simp [h1, h2, h3, h4, h5]

theorem main_startup_ok (b : Build) (c : Consts) (argv : List String) (env : Env)
    (o : Outcomes) (f : Flags) (h : parse_args (argv.tail) initial_flags = .ok f) :
    main_startup b c argv env o = main_after_args b c env o f := by
  simp only [main_startup, h]

theorem main_startup_error (b : Build) (c : Consts) (argv : List String) (env : Env)
    (o : Outcomes) (a : String) (h : parse_args (argv.tail) initial_flags = .error a) :
    main_startup b c argv env o =
      returned ([.fprintf_stderr "Unknown option '%s'\n\n" [.str a]] ++ print_usage)
        EXIT_FAILURE (initial_paths c) := by
  simp only [main_startup, h]


/-! ### Unknown options -/

theorem prepare_paths_passive (env : Env) (p : Paths) :
    ∀ e ∈ (prepare_paths env p).trace, e.is_passive = true := by
  unfold prepare_paths
  split_ifs <;> try simp
  all_goals (split <;> try simp [Event.is_passive])
  all_goals (split_ifs <;> try simp [Event.is_passive])
  all_goals (split <;> try simp [Event.is_passive])
  all_goals (split_ifs <;> try simp [Event.is_passive])
  all_goals (split <;> try simp [Event.is_passive])
  all_goals (split_ifs <;> try simp [Event.is_passive])

/-- C7 (amended): when the argument loop meets an argument that is none of the five
options (and was not taken as the `--debug` filter), `main` writes the line
"Unknown option" to standard error, writes the usage text with `printf`, that is to
standard output, does nothing else and returns `EXIT_FAILURE`, which is not zero. -/
theorem unknown_option_usage_on_stdout (b : Build) (c : Consts) (argv : List String)
    (env : Env) (o : Outcomes) (a : String)
    (h : parse_args (argv.tail) initial_flags = .error a) :
    (a ∈ argv.tail ∧ a ∉ ["--help", "--version", "--check-config", "--daemon", "--debug"]) ∧
    (main b c argv env o).trace =
      [.fprintf_stderr "Unknown option '%s'\n\n" [.str a], .printf usage_text []] ∧
    (main b c argv env o).exit_code = EXIT_FAILURE ∧ EXIT_FAILURE ≠ 0 := by
  have hk := parse_args_error _ _ _ h
  refine ⟨⟨hk.1, ?_⟩, ?_, ?_, by decide⟩
  · simp [hk.2.1, hk.2.2.1, hk.2.2.2.1, hk.2.2.2.2.1, hk.2.2.2.2.2]
  · simp only [main, main_startup, h]
    simp [returned, print_usage]
  · simp only [main, main_startup, h]
    simp [returned]

theorem unknown_option_usage_on_stdout_witness :
    parse_args (["brickd", "--daemon", "-x"].tail) initial_flags = .error "-x" ∧
    (main plain_build sample_consts ["brickd", "--daemon", "-x"] root_env all_ok).exit_code
      = EXIT_FAILURE :=
  ⟨by simp [parse_args, initial_flags],
   (unknown_option_usage_on_stdout plain_build sample_consts ["brickd", "--daemon", "-x"]
      root_env all_ok "-x" (by simp [parse_args, initial_flags])).2.2.1⟩

/-- C7 as stated fails: for `brickd --bogus` the loop meets the unknown argument, yet
nothing that `main` writes to standard error is the usage text; the usage text goes
to standard output. -/
theorem unknown_option_usage_not_on_stderr :
    parse_args (["brickd", "--bogus"].tail) initial_flags = .error "--bogus" ∧
    (∀ fmt args, Event.fprintf_stderr fmt args ∈
        (main plain_build sample_consts ["brickd", "--bogus"] root_env all_ok).trace →
      fmt ≠ usage_text) ∧
    Event.printf usage_text [] ∈
      (main plain_build sample_consts ["brickd", "--bogus"] root_env all_ok).trace := by
  refine ⟨by simp [parse_args, initial_flags], ?_, ?_⟩
  · intro fmt args hmem
    simp [main, main_startup, parse_args, initial_flags, returned, print_usage] at hmem
    rw [hmem.1]
    decide
  · simp [main, main_startup, parse_args, initial_flags, returned, print_usage]


/-! ### Case analysis of a run -/

theorem main_event_loop_cases (P : Startup → Prop) (b : Build) (o : Outcomes)
    (paths : Paths) (pid_fd : Int) (iu : Bool) (phase : Nat) (t : List Event)
    (hfail : o.event_run < 0 →
      P (at_label_cleanup (t ++ [event_run_event o]) EXIT_FAILURE phase pid_fd iu paths))
    (hok : ¬ o.event_run < 0 →
      P (at_label_cleanup
          (t ++ [event_run_event o] ++ (if b.with_red_brick then announce_events else []))
          EXIT_SUCCESS phase pid_fd iu paths)) :
    P (main_event_loop b o paths pid_fd iu phase t) := by
  unfold main_event_loop
  simp only []
  split_ifs with h1 h2
  · exact hfail h1
  · simpa [h2, event_run_event, announce_events] using hok h1
  · simpa [h2, event_run_event, announce_events] using hok h1

theorem main_red_brick_cases (P : Startup → Prop) (b : Build) (o : Outcomes)
    (paths : Paths) (pid_fd : Int) (iu : Bool) (t : List Event)
    (h1 : o.gpio_init < 0 →
      P (at_label_cleanup (t ++ (red_brick_events o).take 1) EXIT_FAILURE 11 pid_fd iu paths))
    (h2 : ¬ o.gpio_init < 0 → o.redapid_init < 0 →
      P (at_label_cleanup (t ++ (red_brick_events o).take 2) EXIT_FAILURE 12 pid_fd iu paths))
    (h3 : ¬ o.gpio_init < 0 → ¬ o.redapid_init < 0 → o.red_stack_init < 0 →
      P (at_label_cleanup (t ++ (red_brick_events o).take 3) EXIT_FAILURE 13 pid_fd iu paths))
    (h4 : ¬ o.gpio_init < 0 → ¬ o.redapid_init < 0 → ¬ o.red_stack_init < 0 →
      o.red_extension_init < 0 →
      P (at_label_cleanup (t ++ (red_brick_events o).take 4) EXIT_FAILURE 14 pid_fd iu paths))
    (h5 : ¬ o.gpio_init < 0 → ¬ o.redapid_init < 0 → ¬ o.red_stack_init < 0 →
      ¬ o.red_extension_init < 0 → o.red_usb_gadget_init < 0 →
      P (at_label_cleanup (t ++ red_brick_events o) EXIT_FAILURE 15 pid_fd iu paths))
    (h6 : ¬ o.gpio_init < 0 → ¬ o.redapid_init < 0 → ¬ o.red_stack_init < 0 →
      ¬ o.red_extension_init < 0 → ¬ o.red_usb_gadget_init < 0 →
      P (main_event_loop b o paths pid_fd iu 16 (t ++ red_brick_events o ++ led_events))) :
    P (main_red_brick b o paths pid_fd iu t) := by
  unfold main_red_brick
  simp only []
  split_ifs with e1 e2 e3 e4 e5
  · simpa [red_brick_events] using h1 e1
  · simpa [red_brick_events] using h2 e1 e2
  · simpa [red_brick_events] using h3 e1 e2 e3
  · simpa [red_brick_events] using h4 e1 e2 e3 e4
  · simpa [red_brick_events] using
      h5 e1 e2 e3 e4 e5
  · simpa [red_brick_events, led_events] using
      h6 e1 e2 e3 e4 e5

theorem main_network_cases (P : Startup → Prop) (b : Build) (o : Outcomes)
    (paths : Paths) (pid_fd : Int) (iu : Bool) (phase : Nat) (t : List Event)
    (h1 : o.network_init < 0 →
      P (at_label_cleanup (t ++ [call0 .network_init o.network_init]) EXIT_FAILURE phase
          pid_fd iu paths))
    (h2 : ¬ o.network_init < 0 → o.mesh_init < 0 →
      P (at_label_cleanup
          (t ++ [call0 .network_init o.network_init, call0 .mesh_init o.mesh_init])
          EXIT_FAILURE 10 pid_fd iu paths))
    (h3 : ¬ o.network_init < 0 → ¬ o.mesh_init < 0 → b.with_red_brick = true →
      P (main_red_brick b o paths pid_fd iu
          (t ++ [call0 .network_init o.network_init, call0 .mesh_init o.mesh_init])))
    (h4 : ¬ o.network_init < 0 → ¬ o.mesh_init < 0 → b.with_red_brick = false →
      P (main_event_loop b o paths pid_fd iu 11
          (t ++ [call0 .network_init o.network_init, call0 .mesh_init o.mesh_init]))) :
    P (main_network b o paths pid_fd iu phase t) := by
  unfold main_network
  simp only []
  split_ifs with e1 e2 e3
  · exact h1 e1
  · simpa using h2 e1 e2
  · simpa using h3 e1 e2 e3
  · simpa using h4 e1 e2 (by simpa using e3)

theorem main_udev_cases (P : Startup → Prop) (b : Build) (o : Outcomes)
    (paths : Paths) (pid_fd : Int) (t : List Event)
    (h1 : b.with_libudev = true → o.usb_has_hotplug = false → o.udev_init < 0 →
      P (at_label_cleanup (t ++ udev_events b o) EXIT_FAILURE 8 pid_fd false paths))
    (h2 : (b.with_libudev = true → o.usb_has_hotplug = false → ¬ o.udev_init < 0) →
      P (main_network b o paths pid_fd (udev_flag b o) (if b.with_libudev then 9 else 8)
          (t ++ udev_events b o))) :
    P (main_udev b o paths pid_fd t) := by
  unfold main_udev
  simp only []
  by_cases e1 : b.with_libudev = true
  · by_cases e2 : o.usb_has_hotplug = true
    · simpa [e1, e2, udev_events, udev_flag] using h2 (by simp [e2])
    · have e2f : o.usb_has_hotplug = false := by simpa using e2
      by_cases e3 : o.udev_init < 0
      · simpa [e1, e2f, e3, udev_events] using h1 e1 e2f e3
      · simpa [e1, e2f, e3, udev_events, udev_flag] using h2 (fun _ _ => e3)
  · have e1f : b.with_libudev = false := by simpa using e1
    simpa [e1f, udev_events, udev_flag] using h2 (by simp [e1f])

theorem main_subsystems_cases (P : Startup → Prop) (b : Build) (o : Outcomes)
    (paths : Paths) (pid_fd : Int) (phase : Nat) (t : List Event)
    (h1 : o.event_init < 0 →
      P (at_label_cleanup (t ++ (subsystem_events o).take 1) EXIT_FAILURE phase pid_fd false
          paths))
    (h2 : ¬ o.event_init < 0 → o.signal_init < 0 →
      P (at_label_cleanup (t ++ (subsystem_events o).take 2) EXIT_FAILURE 5 pid_fd false paths))
    (h3 : ¬ o.event_init < 0 → ¬ o.signal_init < 0 → o.hardware_init < 0 →
      P (at_label_cleanup (t ++ (subsystem_events o).take 3) EXIT_FAILURE 6 pid_fd false paths))
    (h4 : ¬ o.event_init < 0 → ¬ o.signal_init < 0 → ¬ o.hardware_init < 0 → o.usb_init < 0 →
      P (at_label_cleanup (t ++ subsystem_events o) EXIT_FAILURE 7 pid_fd false paths))
    (h5 : ¬ o.event_init < 0 → ¬ o.signal_init < 0 → ¬ o.hardware_init < 0 → ¬ o.usb_init < 0 →
      P (main_udev b o paths pid_fd (t ++ subsystem_events o))) :
    P (main_subsystems b o paths pid_fd phase t) := by
  unfold main_subsystems
  simp only []
  split_ifs with e1 e2 e3 e4
  · simpa [subsystem_events] using h1 e1
  · simpa [subsystem_events] using h2 e1 e2
  · simpa [subsystem_events] using h3 e1 e2 e3
  · simpa [subsystem_events] using h4 e1 e2 e3 e4
  · simpa [subsystem_events] using
      h5 e1 e2 e3 e4

theorem main_dlopen_cases (P : Startup → Prop) (b : Build) (o : Outcomes)
    (paths : Paths) (pid_fd : Int) (t : List Event)
    (h1 : b.with_libusb_dlopen = true → o.libusb_init_dlopen < 0 →
      P (at_label_cleanup (t ++ dlopen_events b o) EXIT_FAILURE 3 pid_fd false paths))
    (h2 : (b.with_libusb_dlopen = true → ¬ o.libusb_init_dlopen < 0) →
      P (main_subsystems b o paths pid_fd (if b.with_libusb_dlopen then 4 else 3)
          (t ++ dlopen_events b o))) :
    P (main_dlopen b o paths pid_fd t) := by
  unfold main_dlopen
  simp only []
  by_cases e1 : b.with_libusb_dlopen = true
  · by_cases e2 : o.libusb_init_dlopen < 0
    · simpa [e1, e2, dlopen_events] using h1 e1 e2
    · simpa [e1, e2, dlopen_events] using h2 (fun _ => e2)
  · have e1f : b.with_libusb_dlopen = false := by simpa using e1
    simpa [e1f, dlopen_events] using h2 (by simp [e1f])

/-- Every run of lines 254-398 ends in one of nineteen ways. -/
theorem main_run_cases (P : Startup → Prop) (b : Build) (c : Consts) (o : Outcomes)
    (paths : Paths) (f : Flags) (t : List Event)
    (h_config : o.config_has_error = true →
      P (at_label_cleanup
          (t ++ [.call .config_init [.str paths.config_filename] none,
                 .query .config_has_error o.config_has_error,
                 .fprintf_stderr "Error(s) occurred while reading config file '%s'\n"
                   [.str paths.config_filename]])
          EXIT_FAILURE 1 (-1) false paths))
    (h_lock : o.config_has_error = false → lock_fd o f < 0 →
      P (at_label_cleanup (trace_lock c o paths f t) EXIT_FAILURE 2 (lock_fd o f) false paths))
    (h_dlopen : o.config_has_error = false → ¬ lock_fd o f < 0 →
      b.with_libusb_dlopen = true → o.libusb_init_dlopen < 0 →
      P (at_label_cleanup (trace_dlopen b c o paths f t) EXIT_FAILURE 3 (lock_fd o f) false
          paths))
    (h_event : ok_dlopen b o f → o.event_init < 0 →
      P (at_label_cleanup (trace_dlopen b c o paths f t ++ (subsystem_events o).take 1)
          EXIT_FAILURE (if b.with_libusb_dlopen then 4 else 3) (lock_fd o f) false paths))
    (h_signal : ok_dlopen b o f → ¬ o.event_init < 0 → o.signal_init < 0 →
      P (at_label_cleanup (trace_dlopen b c o paths f t ++ (subsystem_events o).take 2)
          EXIT_FAILURE 5 (lock_fd o f) false paths))
    (h_hardware : ok_dlopen b o f → ¬ o.event_init < 0 → ¬ o.signal_init < 0 →
      o.hardware_init < 0 →
      P (at_label_cleanup (trace_dlopen b c o paths f t ++ (subsystem_events o).take 3)
          EXIT_FAILURE 6 (lock_fd o f) false paths))
    (h_usb : ok_dlopen b o f → ¬ o.event_init < 0 → ¬ o.signal_init < 0 →
      ¬ o.hardware_init < 0 → o.usb_init < 0 →
      P (at_label_cleanup (trace_dlopen b c o paths f t ++ subsystem_events o)
          EXIT_FAILURE 7 (lock_fd o f) false paths))
    (h_udev : ok_dlopen b o f → ¬ o.event_init < 0 → ¬ o.signal_init < 0 →
      ¬ o.hardware_init < 0 → ¬ o.usb_init < 0 →
      b.with_libudev = true → o.usb_has_hotplug = false → o.udev_init < 0 →
      P (at_label_cleanup (trace_udev b c o paths f t) EXIT_FAILURE 8 (lock_fd o f) false
          paths))
    (h_network : ok_udev b o f → o.network_init < 0 →
      P (at_label_cleanup (trace_udev b c o paths f t ++ [call0 .network_init o.network_init])
          EXIT_FAILURE (if b.with_libudev then 9 else 8) (lock_fd o f) (udev_flag b o) paths))
    (h_mesh : ok_udev b o f → ¬ o.network_init < 0 → o.mesh_init < 0 →
      P (at_label_cleanup (trace_mesh b c o paths f t) EXIT_FAILURE 10 (lock_fd o f)
          (udev_flag b o) paths))
    (h_gpio : ok_mesh b o f → b.with_red_brick = true → o.gpio_init < 0 →
      P (at_label_cleanup (trace_mesh b c o paths f t ++ (red_brick_events o).take 1)
          EXIT_FAILURE 11 (lock_fd o f) (udev_flag b o) paths))
    (h_redapid : ok_mesh b o f → b.with_red_brick = true → ¬ o.gpio_init < 0 →
      o.redapid_init < 0 →
      P (at_label_cleanup (trace_mesh b c o paths f t ++ (red_brick_events o).take 2)
          EXIT_FAILURE 12 (lock_fd o f) (udev_flag b o) paths))
    (h_red_stack : ok_mesh b o f → b.with_red_brick = true → ¬ o.gpio_init < 0 →
      ¬ o.redapid_init < 0 → o.red_stack_init < 0 →
      P (at_label_cleanup (trace_mesh b c o paths f t ++ (red_brick_events o).take 3)
          EXIT_FAILURE 13 (lock_fd o f) (udev_flag b o) paths))
    (h_red_extension : ok_mesh b o f → b.with_red_brick = true → ¬ o.gpio_init < 0 →
      ¬ o.redapid_init < 0 → ¬ o.red_stack_init < 0 → o.red_extension_init < 0 →
      P (at_label_cleanup (trace_mesh b c o paths f t ++ (red_brick_events o).take 4)
          EXIT_FAILURE 14 (lock_fd o f) (udev_flag b o) paths))
    (h_red_usb_gadget : ok_mesh b o f → b.with_red_brick = true → ¬ o.gpio_init < 0 →
      ¬ o.redapid_init < 0 → ¬ o.red_stack_init < 0 → ¬ o.red_extension_init < 0 →
      o.red_usb_gadget_init < 0 →
      P (at_label_cleanup (trace_mesh b c o paths f t ++ red_brick_events o)
          EXIT_FAILURE 15 (lock_fd o f) (udev_flag b o) paths))
    (h_run_red_fail : ok_mesh b o f → b.with_red_brick = true → ¬ o.gpio_init < 0 →
      ¬ o.redapid_init < 0 → ¬ o.red_stack_init < 0 → ¬ o.red_extension_init < 0 →
      ¬ o.red_usb_gadget_init < 0 → o.event_run < 0 →
      P (at_label_cleanup
          (trace_mesh b c o paths f t ++ red_brick_events o ++ led_events ++ [event_run_event o])
          EXIT_FAILURE 16 (lock_fd o f) (udev_flag b o) paths))
    (h_run_red_ok : ok_mesh b o f → b.with_red_brick = true → ¬ o.gpio_init < 0 →
      ¬ o.redapid_init < 0 → ¬ o.red_stack_init < 0 → ¬ o.red_extension_init < 0 →
      ¬ o.red_usb_gadget_init < 0 → ¬ o.event_run < 0 →
      P (at_label_cleanup
          (trace_mesh b c o paths f t ++ red_brick_events o ++ led_events ++
            [event_run_event o] ++ announce_events)
          EXIT_SUCCESS 16 (lock_fd o f) (udev_flag b o) paths))
    (h_run_fail : ok_mesh b o f → b.with_red_brick = false → o.event_run < 0 →
      P (at_label_cleanup (trace_mesh b c o paths f t ++ [event_run_event o])
          EXIT_FAILURE 11 (lock_fd o f) (udev_flag b o) paths))
    (h_run_ok : ok_mesh b o f → b.with_red_brick = false → ¬ o.event_run < 0 →
      P (at_label_cleanup (trace_mesh b c o paths f t ++ [event_run_event o])
          EXIT_SUCCESS 11 (lock_fd o f) (udev_flag b o) paths)) :
    P (main_run b c o paths f t) := by
  unfold main_run
  simp only []
  split_ifs with e1 e2
  · simpa using h_config e1
  · simpa [trace_lock] using h_lock (by simpa using e1) e2
  have e1 : o.config_has_error = false := by simpa using e1
  have e2 : ¬ lock_fd o f < 0 := e2
  have ht : t ++ [Event.call .config_init [.str paths.config_filename] none,
      .query .config_has_error o.config_has_error] ++ lock_events c o paths f ++
      banner_events c o paths f ++ dlopen_events b o = trace_dlopen b c o paths f t := by
    simp [trace_dlopen, trace_lock]
  apply main_dlopen_cases
  · intro e3 e4
    rw [ht]
    exact h_dlopen e1 e2 e3 e4
  intro e3
  have g0 : ok_dlopen b o f := ⟨e1, e2, e3⟩
  rw [ht]
  apply main_subsystems_cases
  · exact h_event g0
  · exact h_signal g0
  · exact h_hardware g0
  · exact h_usb g0
  intro e4 e5 e6 e7
  have ht2 : trace_dlopen b c o paths f t ++ subsystem_events o ++ udev_events b o
      = trace_udev b c o paths f t := rfl
  apply main_udev_cases
  · intro e8 e9 e10
    rw [ht2]
    exact h_udev g0 e4 e5 e6 e7 e8 e9 e10
  intro e8
  have g1 : ok_udev b o f := ⟨g0, e4, e5, e6, e7, e8⟩
  rw [ht2]
  have ht3 : trace_udev b c o paths f t ++
      [call0 .network_init o.network_init, call0 .mesh_init o.mesh_init]
      = trace_mesh b c o paths f t := rfl
  apply main_network_cases
  · exact h_network g1
  · intro e9 e10
    rw [ht3]
    exact h_mesh g1 e9 e10
  · intro e9 e10 e11
    have g2 : ok_mesh b o f := ⟨g1, e9, e10⟩
    rw [ht3]
    apply main_red_brick_cases
    · exact h_gpio g2 e11
    · exact h_redapid g2 e11
    · exact h_red_stack g2 e11
    · exact h_red_extension g2 e11
    · exact h_red_usb_gadget g2 e11
    intro r1 r2 r3 r4 r5
    apply main_event_loop_cases
    · exact h_run_red_fail g2 e11 r1 r2 r3 r4 r5
    · intro r6
      simpa [e11] using h_run_red_ok g2 e11 r1 r2 r3 r4 r5 r6
  · intro e9 e10 e11
    have g2 : ok_mesh b o f := ⟨g1, e9, e10⟩
    rw [ht3]
    apply main_event_loop_cases
    · exact h_run_fail g2 e11
    · intro r6
      simpa [e11] using h_run_ok g2 e11 r6


/-! ### The shape of a run and of the cleanup switch -/

theorem main_startup_form (b : Build) (c : Consts) (argv : List String) (env : Env)
    (o : Outcomes) :
    (∃ t code p, main_startup b c argv env o = returned t code p ∧
      ∀ e ∈ t, e.is_passive = true) ∨
    (∃ f, parse_args argv.tail initial_flags = .ok f ∧ f.help = false ∧ f.version = false ∧
      f.check_config = false ∧ ¬ (prepare_paths env (initial_paths c)).rc < 0 ∧
      main_startup b c argv env o =
        main_run b c o (prepare_paths env (initial_paths c)).paths f
          (prepare_paths env (initial_paths c)).trace) := by
  have hpp := prepare_paths_passive env (initial_paths c)
  cases hp : parse_args argv.tail initial_flags with
  | error a =>
    left
    refine ⟨_, _, _, main_startup_error _ _ _ _ _ _ hp, ?_⟩
    simp [print_usage, Event.is_passive]
  | ok f =>
    rw [main_startup_ok _ _ _ _ _ _ hp]
    unfold main_after_args
    simp only []
    by_cases h1 : f.help = true
    · left
      simp only [h1, if_true]
      exact ⟨_, _, _, rfl, by simp [print_usage, Event.is_passive]⟩
    by_cases h2 : f.version = true
    · left
      simp only [h1, h2, if_true, if_false]
      exact ⟨_, _, _, rfl, by simp [Event.is_passive]⟩
    by_cases h3 : (prepare_paths env (initial_paths c)).rc < 0
    · left
      simp only [h1, h2, h3, if_true, if_false]
      exact ⟨_, _, _, rfl, hpp⟩
    by_cases h4 : f.check_config = true
    · left
      simp only [h1, h2, h3, h4, if_true, if_false]
      refine ⟨_, _, _, rfl, ?_⟩
      intro e he
      rcases List.mem_append.1 he with he | he
      · exact hpp e he
      · simp only [List.mem_singleton] at he
        subst he; rfl
    · right
      refine ⟨f, rfl, by simpa using h1, by simpa using h2, by simpa using h4, h3, ?_⟩
      simp [h1, h2, h3, h4]

theorem main_run_phase_label (b : Build) (c : Consts) (o : Outcomes) (paths : Paths)
    (f : Flags) (t : List Event) (x : String) (y : Int) (z : Bool) :
    (main_run b c o paths f t).phase ∈ (cleanup_cases b c x y z).map Prod.fst := by
  apply main_run_cases (fun s => s.phase ∈ (cleanup_cases b c x y z).map Prod.fst)
  all_goals
    intros
    rcases b with ⟨_ | _, _ | _, _ | _⟩ <;> simp_all [at_label_cleanup, cleanup_cases]

theorem main_run_at_cleanup (b : Build) (c : Consts) (o : Outcomes) (paths : Paths)
    (f : Flags) (t : List Event) :
    (main_run b c o paths f t).at_cleanup = true := by
  apply main_run_cases (fun s => s.at_cleanup = true)
  all_goals
    intros
    rfl


/-! ### Help, version and config check -/

/-- C8 (amended): when the argument list contains `--help` or `--version` and the
argument loop meets no unknown option, `main` prints the usage text if `--help` is
present and otherwise the version string, does nothing else, and returns
`EXIT_SUCCESS`. -/
theorem help_version_success (b : Build) (c : Consts) (argv : List String) (env : Env)
    (o : Outcomes) (f : Flags) (hp : parse_args (argv.tail) initial_flags = .ok f)
    (hm : "--help" ∈ argv.tail ∨ "--version" ∈ argv.tail) :
    (main b c argv env o).exit_code = EXIT_SUCCESS ∧
    (main b c argv env o).trace =
      if "--help" ∈ argv.tail then [.printf usage_text []]
      else [.printf "%s\n" [.str c.VERSION_STRING]] := by
  obtain ⟨h1, h2, -, -⟩ := parse_args_flags _ _ _ hp
  simp only [initial_flags, Bool.false_or] at h1 h2
  simp only [main, main_startup_ok b c argv env o f hp, main_after_args, h1, h2]
  by_cases hh : "--help" ∈ argv.tail
  · simp [hh, returned, print_usage]
  · have hv : "--version" ∈ argv.tail := hm.resolve_left hh
    simp [hh, hv, returned]

theorem help_version_success_witness :
    (main full_build sample_consts ["brickd", "--debug", "usb", "--version"] root_env
        all_ok).exit_code = EXIT_SUCCESS ∧
    (main full_build sample_consts ["brickd", "--debug", "usb", "--version"] root_env
        all_ok).trace = [.printf "%s\n" [.str "2.3.0"]] := by
  have h := help_version_success full_build sample_consts
    ["brickd", "--debug", "usb", "--version"] root_env all_ok
    { help := false, version := true, check_config := false, daemon := false,
      debug_filter := some "usb" }
    (by simp [parse_args, initial_flags, strncmp_dashdash_ne]) (by simp)
  refine ⟨h.1, ?_⟩
  rw [h.2]
  simp [sample_consts]

/-- C8 as stated fails: `brickd --version --bogus` contains `--version`, but the loop
returns at the unknown option: no version string is printed and the exit code is
`EXIT_FAILURE`. -/
theorem version_then_unknown_fails :
    "--version" ∈ ["brickd", "--version", "--bogus"].tail ∧
    (main plain_build sample_consts ["brickd", "--version", "--bogus"] root_env
        all_ok).exit_code = EXIT_FAILURE ∧
    EXIT_FAILURE ≠ EXIT_SUCCESS ∧
    Event.printf "%s\n" [.str sample_consts.VERSION_STRING] ∉
      (main plain_build sample_consts ["brickd", "--version", "--bogus"] root_env
        all_ok).trace := by
  have h : parse_args (["brickd", "--version", "--bogus"].tail) initial_flags
      = .error "--bogus" := by simp [parse_args, initial_flags]
  refine ⟨by simp, ?_, by decide, ?_⟩
  · simp only [main, main_startup_error _ _ _ _ _ _ h]
    simp [returned]
  · simp only [main, main_startup_error _ _ _ _ _ _ h]
    simp [returned, print_usage]

/-- C4: whenever `--check-config` is among the arguments, whatever path resolution
and `config_check` do, `main` never reaches the cleanup switch, and everything it does
is printing, the `mkdir`/`stat` of `prepare_paths` and `config_check`: no call of
`pid_file_acquire`, `daemon_start`, `config_init`, `log_init`, of any subsystem init or
of any exit function occurs. -/
theorem check_config_starts_nothing (b : Build) (c : Consts) (argv : List String)
    (env : Env) (o : Outcomes) (h : "--check-config" ∈ argv.tail) :
    (main_startup b c argv env o).at_cleanup = false ∧
    (∀ e ∈ (main b c argv env o).trace, e.is_passive = true) ∧
    (∀ fn ∈ lifecycle_fns, ∀ args r,
      Event.call fn args r ∉ (main b c argv env o).trace) := by
  have key : (main_startup b c argv env o).at_cleanup = false ∧
      (∀ e ∈ (main b c argv env o).trace, e.is_passive = true) := by
    have hs : ∃ t code p, main_startup b c argv env o = returned t code p ∧
        ∀ e ∈ t, e.is_passive = true := by
      cases hp : parse_args argv.tail initial_flags with
      | error a =>
        refine ⟨_, _, _, main_startup_error _ _ _ _ _ _ hp, ?_⟩
        simp [print_usage, Event.is_passive]
      | ok f =>
        obtain ⟨-, -, h3, -⟩ := parse_args_flags _ _ _ hp
        simp only [initial_flags, Bool.false_or, h, decide_True] at h3
        have hpp := prepare_paths_passive env (initial_paths c)
        rw [main_startup_ok _ _ _ _ _ _ hp]
        unfold main_after_args
        simp only [h3, if_true]
        have hcc : ∀ e ∈ (prepare_paths env (initial_paths c)).trace ++
            [Event.call .config_check
              [.str (prepare_paths env (initial_paths c)).paths.config_filename]
              (some o.config_check)], e.is_passive = true := by
          intro e he
          rcases List.mem_append.1 he with he | he
          · exact hpp e he
          · simp only [List.mem_singleton] at he
            subst he; rfl
        split_ifs <;> refine ⟨_, _, _, rfl, ?_⟩ <;>
          first
          | exact hpp
          | exact hcc
          | simp [print_usage, Event.is_passive]
    obtain ⟨t, code, p, hs, ht⟩ := hs
    simp only [main, hs]
    simpa [returned] using ht
  refine ⟨key.1, key.2, ?_⟩
  intro fn hfn args r hmem
  have := key.2 _ hmem
  simp only [lifecycle_fns, List.mem_cons, List.mem_singleton, List.not_mem_nil, or_false] at hfn
  rcases hfn with rfl | rfl | rfl | rfl | rfl | rfl | rfl | rfl | rfl | rfl | rfl | rfl | rfl |
    rfl | rfl | rfl | rfl | rfl | rfl | rfl | rfl | rfl | rfl | rfl | rfl | rfl | rfl | rfl | rfl |
    rfl | rfl | rfl | rfl <;> simp [Event.is_passive] at this

theorem check_config_starts_nothing_witness :
    (main_startup full_build sample_consts ["brickd", "--daemon", "--check-config"]
      root_env all_ok).at_cleanup = false :=
  (check_config_starts_nothing full_build sample_consts
    ["brickd", "--daemon", "--check-config"] root_env all_ok (by simp)).1


/-! ### Observations on the events of `prepare_paths` -/

theorem filterMap_none_of_forall {α : Type} (p : Event → Bool) (g : Event → Option α)
    (hg : ∀ e, p e = true → g e = none) (t : List Event)
    (ht : ∀ e ∈ t, p e = true) : t.filterMap g = [] := by
  induction t with
  | nil => rfl
  | cons e rest ih =>
    have h1 := hg e (ht e (List.mem_cons_self _ _))
    have h2 := ih (fun x hx => ht x (List.mem_cons_of_mem _ hx))
    simp [List.filterMap_cons, h1, h2]

theorem filterMap_path_events {α : Type} (g : Event → Option α)
    (hg : ∀ e, e.is_path_event = true → g e = none) (t : List Event)
    (ht : ∀ e ∈ t, e.is_path_event = true) : t.filterMap g = [] := by
  induction t with
  | nil => rfl
  | cons e rest ih =>
    have h1 := hg e (ht e (List.mem_cons_self _ _))
    have h2 := ih (fun x hx => ht x (List.mem_cons_of_mem _ hx))
    simp [List.filterMap_cons, h1, h2]

theorem init_done_path_event (e : Event) (h : e.is_path_event = true) : init_done e = none := by
  unfold init_done
  split <;> simp_all [Event.is_path_event]

theorem exit_call_path_event (e : Event) (h : e.is_path_event = true) : exit_call e = none := by
  unfold exit_call
  split <;> simp_all [Event.is_path_event]

theorem lock_result_path_event (e : Event) (h : e.is_path_event = true) :
    lock_result e = none := by
  unfold lock_result
  split <;> simp_all [Event.is_path_event]

theorem release_args_path_event (e : Event) (h : e.is_path_event = true) :
    release_args e = none := by
  unfold release_args
  split <;> simp_all [Event.is_path_event]

theorem prepare_paths_path_events (env : Env) (p : Paths) :
    ∀ e ∈ (prepare_paths env p).trace, e.is_path_event = true := by
  unfold prepare_paths
  split_ifs <;> try simp
  all_goals (split <;> try simp [Event.is_path_event])
  all_goals (split_ifs <;> try simp [Event.is_path_event])
  all_goals (split <;> try simp [Event.is_path_event])
  all_goals (split_ifs <;> try simp [Event.is_path_event])
  all_goals (split <;> try simp [Event.is_path_event])
  all_goals (split_ifs <;> try simp [Event.is_path_event])

/-! ### The event groups under each observation -/

theorem init_done_lock_events (c : Consts) (o : Outcomes) (paths : Paths) (f : Flags) :
    (lock_events c o paths f).filterMap init_done = [.log] := by
  unfold lock_events
  split_ifs <;> simp [init_done, callv]

theorem init_done_banner_events (c : Consts) (o : Outcomes) (paths : Paths) (f : Flags) :
    (banner_events c o paths f).filterMap init_done = [] := by
  rcases f with ⟨_, _, _, _, _ | df⟩ <;> cases hw : o.config_has_warning <;>
    simp [banner_events, hw, init_done]

theorem init_done_dlopen_events (b : Build) (o : Outcomes) :
    (dlopen_events b o).filterMap init_done = [] := by
  unfold dlopen_events
  split_ifs <;> simp [init_done, call0]

theorem init_done_udev_events (b : Build) (o : Outcomes) :
    (udev_events b o).filterMap init_done = [] := by
  unfold udev_events
  split_ifs <;> simp [init_done, call0]

theorem exit_call_lock_events (c : Consts) (o : Outcomes) (paths : Paths) (f : Flags) :
    (lock_events c o paths f).filterMap exit_call = [] := by
  unfold lock_events
  split_ifs <;> simp [exit_call, callv]

theorem exit_call_banner_events (c : Consts) (o : Outcomes) (paths : Paths) (f : Flags) :
    (banner_events c o paths f).filterMap exit_call = [] := by
  rcases f with ⟨_, _, _, _, _ | df⟩ <;> cases hw : o.config_has_warning <;>
    simp [banner_events, hw, exit_call]

theorem exit_call_dlopen_events (b : Build) (o : Outcomes) :
    (dlopen_events b o).filterMap exit_call = [] := by
  unfold dlopen_events
  split_ifs <;> simp [exit_call, call0]

theorem exit_call_udev_events (b : Build) (o : Outcomes) :
    (udev_events b o).filterMap exit_call = [] := by
  unfold udev_events
  split_ifs <;> simp [exit_call, call0]

theorem exit_call_pid_release_events (x : String) (fd : Int) :
    (pid_release_events x fd).filterMap exit_call = [] := by
  unfold pid_release_events
  split_ifs <;> simp [exit_call]

theorem exit_call_udev_exit_events (iu : Bool) :
    (udev_exit_events iu).filterMap exit_call = [] := by
  unfold udev_exit_events
  split_ifs <;> simp [exit_call, callv]


/-! ### Init calls and the recorded phase -/

theorem exits_upto_dlopen (x : Bool) :
    exits_upto (if x = true then 4 else 3) = [.log, .config] := by
  cases x <;> rfl

theorem exits_upto_udev (x : Bool) :
    exits_upto (if x = true then 9 else 8) =
      [.usb, .hardware, .signal, .event, .log, .config] := by
  cases x <;> rfl

theorem exits_upto_nodup (p : Nat) : (exits_upto p).Nodup :=
  List.Nodup.filter _ (by decide)

theorem main_run_inits (b : Build) (c : Consts) (o : Outcomes) (paths : Paths)
    (f : Flags) (t : List Event) (ht : ∀ e ∈ t, e.is_path_event = true) :
    (main_run b c o paths f t).trace.filterMap exit_call = [] ∧
    (main_run b c o paths f t).trace.filterMap init_done =
      (exits_upto (main_run b c o paths f t).phase).reverse := by
  have ht1 := filterMap_path_events init_done init_done_path_event t ht
  have ht2 := filterMap_path_events exit_call exit_call_path_event t ht
  apply main_run_cases (fun s => s.trace.filterMap exit_call = [] ∧
    s.trace.filterMap init_done = (exits_upto s.phase).reverse)
  all_goals
    intros
    simp only [ok_mesh, ok_udev, ok_dlopen] at *
    simp [*, at_label_cleanup,
        trace_mesh, trace_udev, trace_dlopen, trace_lock, subsystem_events, red_brick_events,
        led_events, announce_events, event_run_event,
        List.filterMap_append, List.filterMap_cons,
        init_done_lock_events, init_done_banner_events, init_done_dlopen_events,
        init_done_udev_events, exit_call_lock_events, exit_call_banner_events,
        exit_call_dlopen_events, exit_call_udev_events, init_done, exit_call, call0, callv,
        exits_upto_dlopen, exits_upto_udev]
    try rfl


/-! ### The events of the cleanup switch -/

theorem switch_from_subset (p : Nat) (cs : List (Nat × List Event)) :
    ∀ x ∈ switch_from p cs, x ∈ cs := by
  induction cs with
  | nil => simp [switch_from]
  | cons y rest ih =>
    unfold switch_from
    split_ifs
    · exact fun x hx => hx
    · exact fun x hx => List.mem_cons_of_mem _ (ih x hx)

theorem pid_release_events_teardown (x : String) (fd : Int) :
    ∀ e ∈ pid_release_events x fd, e.is_teardown = true := by
  unfold pid_release_events
  split_ifs <;> simp [Event.is_teardown]

theorem udev_exit_events_teardown (iu : Bool) :
    ∀ e ∈ udev_exit_events iu, e.is_teardown = true := by
  unfold udev_exit_events
  split_ifs <;> simp [Event.is_teardown, callv]

theorem cleanup_cases_teardown (b : Build) (c : Consts) (x : String) (fd : Int) (iu : Bool) :
    ∀ cs ∈ cleanup_cases b c x fd iu, ∀ e ∈ cs.2, e.is_teardown = true := by
  have h1 := pid_release_events_teardown x fd
  have h2 := udev_exit_events_teardown iu
  intro cs hcs e he
  rcases b with ⟨_ | _, _ | _, _ | _⟩ <;>
    simp [cleanup_cases] at hcs <;>
    rcases hcs with rfl | rfl | rfl | rfl | rfl | rfl | rfl | rfl | rfl | rfl | rfl | rfl | rfl |
      rfl | rfl | rfl <;>
    first
    | exact h2 e he
    | (rcases List.mem_append.1 he with h | h
       · exact h1 e h
       · simp only [List.mem_singleton] at h
         subst h
         rfl)
    | (simp only [List.mem_singleton] at he
       subst he
       rfl)
    | (simp at he)

theorem cleanup_teardown_events (b : Build) (c : Consts) (s : Startup) :
    ∀ e ∈ cleanup b c s, e.is_teardown = true := by
  intro e he
  simp only [cleanup, List.mem_flatten, List.mem_map] at he
  obtain ⟨l, ⟨x, hx, rfl⟩, hel⟩ := he
  exact cleanup_cases_teardown b c _ _ _ x (switch_from_subset _ _ x hx) e hel

theorem init_done_teardown (e : Event) (h : e.is_teardown = true) : init_done e = none := by
  cases e with
  | call fn args ret => cases fn <;> cases ret <;> simp_all [init_done, Event.is_teardown]
  | _ => rfl

theorem result_of_teardown (fn : Fn) (e : Event) (h : e.is_teardown = true) :
    result_of fn e = none := by
  cases e with
  | call g args ret => cases g <;> cases ret <;> simp_all [result_of, Event.is_teardown]
  | _ => rfl

theorem init_done_passive (e : Event) (h : e.is_passive = true) : init_done e = none := by
  unfold init_done
  split <;> simp_all [Event.is_passive]

theorem exit_call_passive (e : Event) (h : e.is_passive = true) : exit_call e = none := by
  unfold exit_call
  split <;> simp_all [Event.is_passive]

theorem result_of_passive (fn : Fn) (h1 : fn ≠ .mkdir) (h2 : fn ≠ .stat)
    (h3 : fn ≠ .config_check) (e : Event) (h : e.is_passive = true) :
    result_of fn e = none := by
  unfold result_of
  split
  · rename_i g args rc
    have : g = .mkdir ∨ g = .stat ∨ g = .config_check := by
      cases g <;> simp_all [Event.is_passive]
    rcases this with rfl | rfl | rfl
    · simp [Ne.symm h1]
    · simp [Ne.symm h2]
    · simp [Ne.symm h3]
  · rfl

theorem cleanup_exits (b : Build) (c : Consts) (s : Startup)
    (h : s.phase ∈
      (cleanup_cases b c s.paths.pid_filename s.pid_fd s.initialized_udev).map Prod.fst) :
    (cleanup b c s).filterMap exit_call = exits_upto s.phase := by
  rcases s with ⟨tr, code, ac, ph, fd, iu, paths⟩
  rcases b with ⟨_ | _, _ | _, _ | _⟩ <;> simp [cleanup_cases] at h <;>
    rcases h with rfl | rfl | rfl | rfl | rfl | rfl | rfl | rfl | rfl | rfl | rfl | rfl | rfl |
      rfl | rfl | rfl <;>
    simp [cleanup, cleanup_executed, cleanup_cases, switch_from, exit_call, callv,
      List.filterMap_append, exit_call_pid_release_events, exit_call_udev_exit_events] <;>
    rfl


/-! ### Exit calls against init calls -/

theorem result_of_path_events (fn : Fn) (h1 : fn ≠ .mkdir) (h2 : fn ≠ .stat) (t : List Event)
    (ht : ∀ e ∈ t, e.is_path_event = true) : t.filterMap (result_of fn) = [] := by
  apply filterMap_path_events _ _ t ht
  intro e he
  unfold result_of
  split
  · rename_i g args rc
    have : g = .mkdir ∨ g = .stat := by
      cases g <;> simp_all [Event.is_path_event]
    rcases this with rfl | rfl
    · simp [Ne.symm h1]
    · simp [Ne.symm h2]
  · rfl

theorem result_of_lock_events (fn : Fn) (h1 : fn ≠ .daemon_start) (h2 : fn ≠ .pid_file_acquire)
    (c : Consts) (o : Outcomes) (paths : Paths) (f : Flags) :
    (lock_events c o paths f).filterMap (result_of fn) = [] := by
  unfold lock_events
  split_ifs <;> simp [result_of, callv, Ne.symm h1, Ne.symm h2]

theorem result_of_banner_events (fn : Fn) (c : Consts) (o : Outcomes) (paths : Paths)
    (f : Flags) : (banner_events c o paths f).filterMap (result_of fn) = [] := by
  rcases f with ⟨_, _, _, _, _ | df⟩ <;> cases hw : o.config_has_warning <;>
    simp [banner_events, hw, result_of]

theorem result_of_dlopen_events (fn : Fn) (h1 : fn ≠ .libusb_init_dlopen) (b : Build)
    (o : Outcomes) : (dlopen_events b o).filterMap (result_of fn) = [] := by
  unfold dlopen_events
  split_ifs <;> simp [result_of, call0, Ne.symm h1]

theorem result_of_udev_events (fn : Fn) (h1 : fn ≠ .udev_init) (b : Build)
    (o : Outcomes) : (udev_events b o).filterMap (result_of fn) = [] := by
  unfold udev_events
  split_ifs <;> simp [result_of, call0, Ne.symm h1]

theorem result_of_call (fn g : Fn) (args : List Arg) (rc : Int) :
    result_of fn (.call g args (some rc)) = if g = fn then some rc else none := rfl

theorem result_of_call_void (fn g : Fn) (args : List Arg) :
    result_of fn (.call g args none) = none := rfl

theorem result_of_query (fn g : Fn) (x : Bool) : result_of fn (.query g x) = none := rfl

theorem result_of_fprintf_stderr (fn : Fn) (x : String) (args : List Arg) :
    result_of fn (.fprintf_stderr x args) = none := rfl

theorem main_run_usb_failure (b : Build) (c : Consts) (o : Outcomes) (paths : Paths)
    (f : Flags) (t : List Event) (ht : ∀ e ∈ t, e.is_path_event = true) :
    (∀ rc ∈ (main_run b c o paths f t).trace.filterMap (result_of .usb_init), ¬ rc < 0) ∨
      ((main_run b c o paths f t).phase = 7 ∧
       (main_run b c o paths f t).exit_code = EXIT_FAILURE) := by
  have ht1 := result_of_path_events .usb_init (by decide) (by decide) t ht
  apply main_run_cases (fun s => (∀ rc ∈ s.trace.filterMap (result_of .usb_init), ¬ rc < 0) ∨
      (s.phase = 7 ∧ s.exit_code = EXIT_FAILURE))
  all_goals
    intros
    simp only [ok_mesh, ok_udev, ok_dlopen] at *
    simp [*, at_label_cleanup,
        trace_mesh, trace_udev, trace_dlopen, trace_lock, subsystem_events, red_brick_events,
        led_events, announce_events, event_run_event,
        List.filterMap_append, List.filterMap_cons,
        result_of_lock_events, result_of_banner_events, result_of_dlopen_events,
        result_of_udev_events, result_of_call, result_of_call_void, result_of_query,
        result_of_fprintf_stderr, call0, callv] <;>
      omega

/-- C2: in every run of `main`, no exit call is made before the cleanup switch, and the
exit calls made by cleanup are exactly the reverse of the init calls that completed
without failure, under the pairing of the eight subsystems config, log, event, signal,
hardware, usb, network, mesh; no subsystem is torn down twice.  In particular, whenever
`usb_init` is called and returns a negative value, the exit calls are `hardware_exit`,
`signal_exit`, `event_exit`, `log_exit`, `config_exit` in this order (`usb_exit`,
`network_exit` and `mesh_exit` are not called) and `main` returns `EXIT_FAILURE`. -/
theorem exits_reverse_inits (b : Build) (c : Consts) (argv : List String) (env : Env)
    (o : Outcomes) :
    (main_startup b c argv env o).trace.filterMap exit_call = [] ∧
    (main b c argv env o).trace.filterMap exit_call =
      ((main b c argv env o).trace.filterMap init_done).reverse ∧
    ((main b c argv env o).trace.filterMap exit_call).Nodup ∧
    (∀ rc ∈ (main b c argv env o).trace.filterMap (result_of .usb_init), rc < 0 →
      (main b c argv env o).trace.filterMap exit_call =
        [.hardware, .signal, .event, .log, .config] ∧
      (main b c argv env o).exit_code = EXIT_FAILURE) := by
  rcases main_startup_form b c argv env o with ⟨t, code, p, hr, ht⟩ | ⟨f, -, -, -, -, -, hr⟩
  · have h1 := filterMap_none_of_forall _ exit_call exit_call_passive t ht
    have h2 := filterMap_none_of_forall _ init_done init_done_passive t ht
    have h3 := filterMap_none_of_forall _ (result_of .usb_init)
      (result_of_passive .usb_init (by decide) (by decide) (by decide)) t ht
    simp [main, hr, returned, h1, h2, h3]
  · have hpe := prepare_paths_path_events env (initial_paths c)
    have hac := main_run_at_cleanup b c o (prepare_paths env (initial_paths c)).paths f
      (prepare_paths env (initial_paths c)).trace
    have hin := main_run_inits b c o (prepare_paths env (initial_paths c)).paths f
      (prepare_paths env (initial_paths c)).trace hpe
    have hlab := main_run_phase_label b c o (prepare_paths env (initial_paths c)).paths f
      (prepare_paths env (initial_paths c)).trace
    have husb := main_run_usb_failure b c o (prepare_paths env (initial_paths c)).paths f
      (prepare_paths env (initial_paths c)).trace hpe
    rw [← hr] at hac hin hlab husb
    have hex := cleanup_exits b c (main_startup b c argv env o) (hlab _ _ _)
    have htd := cleanup_teardown_events b c (main_startup b c argv env o)
    have hci := filterMap_none_of_forall _ init_done init_done_teardown _ htd
    have hcu := filterMap_none_of_forall _ (result_of .usb_init)
      (result_of_teardown .usb_init) _ htd
    have htr : (main b c argv env o).trace =
        (main_startup b c argv env o).trace ++ cleanup b c (main_startup b c argv env o) := by
      simp [main, hac]
    have hcode : (main b c argv env o).exit_code = (main_startup b c argv env o).exit_code :=
      rfl
    refine ⟨hin.1, ?_, ?_, ?_⟩
    · rw [htr, List.filterMap_append, List.filterMap_append, hin.1, hex, hci, hin.2]
      simp
    · rw [htr, List.filterMap_append, hin.1, hex]
      simpa using exits_upto_nodup _
    · intro rc hrc hneg
      rw [htr, List.filterMap_append, hcu, List.append_nil] at hrc
      rcases husb with husb | husb
      · exact absurd hneg (husb rc hrc)
      · rw [htr, List.filterMap_append, hin.1, hex, husb.1, hcode, husb.2]
        exact ⟨rfl, rfl⟩

theorem exits_reverse_inits_witness :
    (main plain_build sample_consts ["brickd"] root_env
        { all_ok with usb_init := -1 }).trace.filterMap exit_call =
      [.hardware, .signal, .event, .log, .config] ∧
    (main plain_build sample_consts ["brickd"] root_env
        { all_ok with usb_init := -1 }).exit_code = EXIT_FAILURE :=
  (exits_reverse_inits plain_build sample_consts ["brickd"] root_env
    { all_ok with usb_init := -1 }).2.2.2 (-1)
    (by simp [main, main_startup, parse_args, initial_flags, main_after_args, prepare_paths,
          root_env, main_run, all_ok, lock_fd, main_dlopen, plain_build, main_subsystems,
          at_label_cleanup, lock_events, banner_events, result_of, call0, callv,
          List.filterMap_append, List.filterMap_cons, cleanup, cleanup_executed,
          cleanup_cases, switch_from, pid_release_events, sample_consts, initial_paths])
    (by decide)


/-! ### The lock descriptor and `pid_file_release` -/

theorem release_args_passive (e : Event) (h : e.is_passive = true) : release_args e = none := by
  unfold release_args
  split <;> simp_all [Event.is_passive]

theorem lock_result_passive (e : Event) (h : e.is_passive = true) : lock_result e = none := by
  unfold lock_result
  split <;> simp_all [Event.is_passive]

theorem lock_result_teardown (e : Event) (h : e.is_teardown = true) : lock_result e = none := by
  cases e with
  | call g args ret => cases g <;> cases ret <;> simp_all [lock_result, Event.is_teardown]
  | _ => rfl

theorem release_args_lock_events (c : Consts) (o : Outcomes) (paths : Paths) (f : Flags) :
    (lock_events c o paths f).filterMap release_args = [] := by
  unfold lock_events
  split_ifs <;> simp [release_args, callv]

theorem release_args_banner_events (c : Consts) (o : Outcomes) (paths : Paths) (f : Flags) :
    (banner_events c o paths f).filterMap release_args = [] := by
  rcases f with ⟨_, _, _, _, _ | df⟩ <;> cases hw : o.config_has_warning <;>
    simp [banner_events, hw, release_args]

theorem release_args_dlopen_events (b : Build) (o : Outcomes) :
    (dlopen_events b o).filterMap release_args = [] := by
  unfold dlopen_events
  split_ifs <;> simp [release_args, call0]

theorem release_args_udev_events (b : Build) (o : Outcomes) :
    (udev_events b o).filterMap release_args = [] := by
  unfold udev_events
  split_ifs <;> simp [release_args, call0]

theorem lock_result_lock_events (c : Consts) (o : Outcomes) (paths : Paths) (f : Flags) :
    (lock_events c o paths f).filterMap lock_result = [lock_fd o f] := by
  unfold lock_events lock_fd
  split_ifs <;> simp [lock_result, callv]

theorem lock_result_banner_events (c : Consts) (o : Outcomes) (paths : Paths) (f : Flags) :
    (banner_events c o paths f).filterMap lock_result = [] := by
  rcases f with ⟨_, _, _, _, _ | df⟩ <;> cases hw : o.config_has_warning <;>
    simp [banner_events, hw, lock_result]

theorem lock_result_dlopen_events (b : Build) (o : Outcomes) :
    (dlopen_events b o).filterMap lock_result = [] := by
  unfold dlopen_events
  split_ifs <;> simp [lock_result, call0]

theorem lock_result_udev_events (b : Build) (o : Outcomes) :
    (udev_events b o).filterMap lock_result = [] := by
  unfold udev_events
  split_ifs <;> simp [lock_result, call0]

theorem main_run_lock (b : Build) (c : Consts) (o : Outcomes) (paths : Paths)
    (f : Flags) (t : List Event) (ht : ∀ e ∈ t, e.is_path_event = true) :
    (main_run b c o paths f t).trace.filterMap release_args = [] ∧
    (main_run b c o paths f t).trace.filterMap lock_result =
      (if 2 ≤ (main_run b c o paths f t).phase then [(main_run b c o paths f t).pid_fd]
       else []) ∧
    (main_run b c o paths f t).paths = paths := by
  have ht1 := filterMap_path_events release_args release_args_path_event t ht
  have ht2 := filterMap_path_events lock_result lock_result_path_event t ht
  apply main_run_cases (fun s => s.trace.filterMap release_args = [] ∧
    s.trace.filterMap lock_result = (if 2 ≤ s.phase then [s.pid_fd] else []) ∧
    s.paths = paths)
  all_goals
    intros
    simp only [ok_mesh, ok_udev, ok_dlopen] at *
    simp [*, at_label_cleanup,
        trace_mesh, trace_udev, trace_dlopen, trace_lock, subsystem_events, red_brick_events,
        led_events, announce_events, event_run_event,
        List.filterMap_append, List.filterMap_cons,
        release_args_lock_events, release_args_banner_events, release_args_dlopen_events,
        release_args_udev_events, lock_result_lock_events, lock_result_banner_events,
        lock_result_dlopen_events, lock_result_udev_events, lock_result, release_args,
        call0, callv]
    try (split_ifs <;> first | rfl | (exfalso; omega))

theorem cleanup_release (b : Build) (c : Consts) (s : Startup)
    (h : s.phase ∈
      (cleanup_cases b c s.paths.pid_filename s.pid_fd s.initialized_udev).map Prod.fst) :
    (cleanup b c s).filterMap release_args =
      (if 2 ≤ s.phase ∧ 0 ≤ s.pid_fd then [[.str s.paths.pid_filename, .int s.pid_fd]]
       else []) ∧
    (2 ≤ s.phase →
      cleanup b c s =
        (((cleanup_executed b c s).filter (fun cs => decide (3 ≤ cs.1))).map
            Prod.snd).flatten ++
          pid_release_events s.paths.pid_filename s.pid_fd ++
          [callv .log_exit, callv .config_exit]) := by
  rcases s with ⟨tr, code, ac, ph, fd, iu, paths⟩
  have hrel : (pid_release_events paths.pid_filename fd).filterMap release_args =
      if 0 ≤ fd then [[.str paths.pid_filename, .int fd]] else [] := by
    unfold pid_release_events
    split_ifs <;> simp [release_args]
  have hud : (udev_exit_events iu).filterMap release_args = [] := by
    unfold udev_exit_events
    split_ifs <;> simp [release_args, callv]
  rcases b with ⟨_ | _, _ | _, _ | _⟩ <;> simp [cleanup_cases] at h <;>
    rcases h with rfl | rfl | rfl | rfl | rfl | rfl | rfl | rfl | rfl | rfl | rfl | rfl | rfl |
      rfl | rfl | rfl <;>
    simp [cleanup, cleanup_executed, cleanup_cases, switch_from, release_args, callv,
      List.filterMap_append, hrel, hud]


/-- C5: in every run of `main`, `pid_file_release` is called at most once; it is called
if and only if the lock-acquisition step (`pid_file_acquire` or `daemon_start`) was
executed and returned a descriptor that is not negative; and when it is called, its
arguments are `_pid_filename` and that descriptor, and the run ends with the teardown
of the cases with label at least 3, then `pid_file_release`, `log_exit`, `config_exit`,
in this order. -/
theorem pid_file_release_once (b : Build) (c : Consts) (argv : List String) (env : Env)
    (o : Outcomes) :
    ((main b c argv env o).trace.filterMap release_args).length ≤ 1 ∧
    ((∃ args, args ∈ (main b c argv env o).trace.filterMap release_args) ↔
      ∃ fd ∈ (main b c argv env o).trace.filterMap lock_result, 0 ≤ fd) ∧
    (∀ args ∈ (main b c argv env o).trace.filterMap release_args,
      ∃ fd, (main b c argv env o).trace.filterMap lock_result = [fd] ∧ 0 ≤ fd ∧
        args = [.str (main_startup b c argv env o).paths.pid_filename, .int fd] ∧
        (main b c argv env o).trace =
          (main_startup b c argv env o).trace ++
            (((cleanup_executed b c (main_startup b c argv env o)).filter
                (fun cs => decide (3 ≤ cs.1))).map Prod.snd).flatten ++
            [.call .pid_file_release args none, callv .log_exit, callv .config_exit]) := by
  rcases main_startup_form b c argv env o with ⟨t, code, p, hr, ht⟩ | ⟨f, -, -, -, -, -, hr⟩
  · have h1 := filterMap_none_of_forall _ release_args release_args_passive t ht
    have h2 := filterMap_none_of_forall _ lock_result lock_result_passive t ht
    simp [main, hr, returned, h1, h2]
  · have hpe := prepare_paths_path_events env (initial_paths c)
    have hac := main_run_at_cleanup b c o (prepare_paths env (initial_paths c)).paths f
      (prepare_paths env (initial_paths c)).trace
    have hlk := main_run_lock b c o (prepare_paths env (initial_paths c)).paths f
      (prepare_paths env (initial_paths c)).trace hpe
    have hlab := main_run_phase_label b c o (prepare_paths env (initial_paths c)).paths f
      (prepare_paths env (initial_paths c)).trace
    rw [← hr] at hac hlk hlab
    have hcr := cleanup_release b c (main_startup b c argv env o) (hlab _ _ _)
    have htd := cleanup_teardown_events b c (main_startup b c argv env o)
    have hcl := filterMap_none_of_forall _ lock_result lock_result_teardown _ htd
    have htr : (main b c argv env o).trace =
        (main_startup b c argv env o).trace ++ cleanup b c (main_startup b c argv env o) := by
      simp [main, hac]
    have hrel : (main b c argv env o).trace.filterMap release_args =
        if 2 ≤ (main_startup b c argv env o).phase ∧ 0 ≤ (main_startup b c argv env o).pid_fd
        then [[.str (main_startup b c argv env o).paths.pid_filename,
               .int (main_startup b c argv env o).pid_fd]]
        else [] := by
      rw [htr, List.filterMap_append, hlk.1, hcr.1, List.nil_append]
    have hlock : (main b c argv env o).trace.filterMap lock_result =
        if 2 ≤ (main_startup b c argv env o).phase
        then [(main_startup b c argv env o).pid_fd] else [] := by
      rw [htr, List.filterMap_append, hlk.2.1, hcl, List.append_nil]
    rw [hrel, hlock]
    by_cases h2 : 2 ≤ (main_startup b c argv env o).phase
    · by_cases h0 : 0 ≤ (main_startup b c argv env o).pid_fd
      · refine ⟨by simp [h2, h0], by simp [h2, h0], ?_⟩
        intro args hargs
        simp only [h2, h0, and_self, if_true, List.mem_singleton] at hargs
        subst hargs
        refine ⟨_, by simp [h2], h0, rfl, ?_⟩
        rw [htr, hcr.2 h2]
        simp [pid_release_events, h0, List.append_assoc]
      · simp [h2, h0]
    · simp [h2]

theorem pid_file_release_once_witness :
    ((main plain_build sample_consts ["brickd"] root_env all_ok).trace.filterMap
      release_args).length ≤ 1 :=
  (pid_file_release_once plain_build sample_consts ["brickd"] root_env all_ok).1


theorem main_run_lock_failure (b : Build) (c : Consts) (o : Outcomes) (paths : Paths)
    (f : Flags) (t : List Event) :
    (2 ≤ (main_run b c o paths f t).phase ∧ (main_run b c o paths f t).pid_fd < 0) →
      main_run b c o paths f t =
        at_label_cleanup (trace_lock c o paths f t) EXIT_FAILURE 2 (lock_fd o f) false paths ∧
      o.config_has_error = false := by
  apply main_run_cases (fun s => (2 ≤ s.phase ∧ s.pid_fd < 0) →
      s = at_label_cleanup (trace_lock c o paths f t) EXIT_FAILURE 2 (lock_fd o f) false paths ∧
      o.config_has_error = false)
  · intro _ h
    simp [at_label_cleanup] at h
  · intro h0 _ _
    exact ⟨rfl, h0⟩
  all_goals
    intros
    simp only [ok_mesh, ok_udev, ok_dlopen] at *
    simp [at_label_cleanup] at *
    omega

theorem cleanup_phase_two (b : Build) (c : Consts) (t : List Event) (code : Int)
    (fd : Int) (iu : Bool) (paths : Paths) :
    cleanup b c (at_label_cleanup t code 2 fd iu paths) =
      pid_release_events paths.pid_filename fd ++ [callv .log_exit, callv .config_exit] := by
  rcases b with ⟨_ | _, _ | _, _ | _⟩ <;>
    simp [cleanup, cleanup_executed, cleanup_cases, switch_from, at_label_cleanup]

/-- C10 (amended): whenever the lock-acquisition step of a run of `main` returns
`PID_FILE_ALREADY_ACQUIRED` (a negative value), the events of `main` after path
resolution are `config_init`, `config_has_error`, `log_init`, the lock call, then in
foreground mode only the message "Already running according to '<pid file>'" on
standard error, then `log_exit` and `config_exit`: no subsystem is started, and `main`
returns `EXIT_FAILURE`.  In daemon mode `main` itself prints no message; reporting is
left to `daemon_start`. -/
theorem already_running_stops (b : Build) (c : Consts) (argv : List String) (env : Env)
    (o : Outcomes) (hneg : c.PID_FILE_ALREADY_ACQUIRED < 0)
    (h : c.PID_FILE_ALREADY_ACQUIRED ∈ (main b c argv env o).trace.filterMap lock_result) :
    ∃ f, parse_args argv.tail initial_flags = .ok f ∧
      (main b c argv env o).trace =
        (prepare_paths env (initial_paths c)).trace ++
          [.call .config_init
             [.str (prepare_paths env (initial_paths c)).paths.config_filename] none,
           .query .config_has_error false,
           callv .log_init] ++
          (if f.daemon then
            [.call .daemon_start
               [.str (prepare_paths env (initial_paths c)).paths.log_filename,
                .sym "_log_file",
                .str (prepare_paths env (initial_paths c)).paths.pid_filename, .int 1]
               (some c.PID_FILE_ALREADY_ACQUIRED)]
           else
            [.call .pid_file_acquire
               [.str (prepare_paths env (initial_paths c)).paths.pid_filename, .int o.pid]
               (some c.PID_FILE_ALREADY_ACQUIRED),
             .fprintf_stderr "Already running according to '%s'\n"
               [.str (prepare_paths env (initial_paths c)).paths.pid_filename]]) ++
          [callv .log_exit, callv .config_exit] ∧
      (main b c argv env o).exit_code = EXIT_FAILURE ∧ EXIT_FAILURE ≠ 0 := by
  rcases main_startup_form b c argv env o with ⟨t, code, p, hr, ht⟩ | ⟨f, hp, -, -, -, -, hr⟩
  · have h2 := filterMap_none_of_forall _ lock_result lock_result_passive t ht
    simp [main, hr, returned, h2] at h
  · refine ⟨f, hp, ?_⟩
    have hpe := prepare_paths_path_events env (initial_paths c)
    have hac := main_run_at_cleanup b c o (prepare_paths env (initial_paths c)).paths f
      (prepare_paths env (initial_paths c)).trace
    have hlk := main_run_lock b c o (prepare_paths env (initial_paths c)).paths f
      (prepare_paths env (initial_paths c)).trace hpe
    have hfail := main_run_lock_failure b c o (prepare_paths env (initial_paths c)).paths f
      (prepare_paths env (initial_paths c)).trace
    rw [← hr] at hac hlk hfail
    have htd := cleanup_teardown_events b c (main_startup b c argv env o)
    have hcl := filterMap_none_of_forall _ lock_result lock_result_teardown _ htd
    have htr : (main b c argv env o).trace =
        (main_startup b c argv env o).trace ++ cleanup b c (main_startup b c argv env o) := by
      simp [main, hac]
    rw [htr, List.filterMap_append, hlk.2.1, hcl, List.append_nil] at h
    by_cases h2 : 2 ≤ (main_startup b c argv env o).phase
    · simp only [h2, if_true, List.mem_singleton] at h
      obtain ⟨hs, hce⟩ := hfail ⟨h2, by rw [← h]; exact hneg⟩
      have hfd : lock_fd o f = c.PID_FILE_ALREADY_ACQUIRED := by
        rw [h, hs]
        rfl
      have hex : (main b c argv env o).exit_code = EXIT_FAILURE := by
        show (main_startup b c argv env o).exit_code = EXIT_FAILURE
        rw [hs]
        rfl
      refine ⟨?_, hex, by decide⟩
      rw [htr, hs, cleanup_phase_two]
      have hlt : ¬ (0 ≤ lock_fd o f) := by rw [hfd]; omega
      unfold lock_fd at hfd
      by_cases hd : f.daemon = true
      · simp only [hd, if_true] at hfd
        simp [at_label_cleanup, trace_lock, lock_events, pid_release_events, hlt, hd, hfd,
          hce, callv]
      · have hd2 : f.daemon = false := by simpa using hd
        rw [hd2] at hfd
        simp only [Bool.false_eq_true, if_false] at hfd
        simp [at_label_cleanup, trace_lock, lock_events, pid_release_events, hlt, hd, hfd,
          hce, callv]
    · simp [h2] at h

theorem already_running_stops_witness :
    (main plain_build sample_consts ["brickd"] root_env
      { all_ok with pid_file_acquire := -2 }).exit_code = EXIT_FAILURE := by
  obtain ⟨f, -, -, h, -⟩ := already_running_stops plain_build sample_consts ["brickd"]
    root_env { all_ok with pid_file_acquire := -2 } (by decide)
    (by simp [main, main_startup, parse_args, initial_flags, main_after_args, prepare_paths,
          root_env, main_run, all_ok, lock_fd, at_label_cleanup, lock_events, lock_result,
          callv, List.filterMap_append, List.filterMap_cons, cleanup, cleanup_executed,
          cleanup_cases, switch_from, pid_release_events, sample_consts, initial_paths,
          plain_build])
  exact h

/-- C10 as stated fails in daemon mode: when `daemon_start` returns
`PID_FILE_ALREADY_ACQUIRED`, `main` writes nothing to standard error. -/
theorem already_running_daemon_silent :
    sample_consts.PID_FILE_ALREADY_ACQUIRED ∈
      (main plain_build sample_consts ["brickd", "--daemon"] root_env
        { all_ok with daemon_start := -2 }).trace.filterMap lock_result ∧
    ∀ fmt args, Event.fprintf_stderr fmt args ∉
      (main plain_build sample_consts ["brickd", "--daemon"] root_env
        { all_ok with daemon_start := -2 }).trace := by
  constructor
  · simp [main, main_startup, parse_args, initial_flags, main_after_args, prepare_paths,
      root_env, main_run, all_ok, lock_fd, at_label_cleanup, lock_events, lock_result,
      callv, List.filterMap_append, List.filterMap_cons, cleanup, cleanup_executed,
      cleanup_cases, switch_from, pid_release_events, sample_consts, initial_paths,
      plain_build]
  · intro fmt args
    simp [main, main_startup, parse_args, initial_flags, main_after_args, prepare_paths,
      root_env, main_run, all_ok, lock_fd, at_label_cleanup, lock_events,
      callv, cleanup, cleanup_executed,
      cleanup_cases, switch_from, pid_release_events, sample_consts, initial_paths,
      plain_build]


/-! ### Exit codes -/

/-- C6: `handle_sighup` does nothing (state unchanged, no event) when the log output
is not `_log_file`.  When it is, the handler switches to standard error, destroys the
file object and calls `file_create` on the same `_log_filename` with
`O_CREAT | O_WRONLY | O_APPEND` and mode 0644; on success the new file becomes the
log output and "Reopened" is logged; on failure an error is logged, the handler
returns, and the log output stays on standard error.  In every case, if the log output
is `_log_file` afterwards then `_log_file` is a created file, never a destroyed one. -/
theorem handle_sighup_reopens (log_filename : String) (rc : Int) (s : LogState) :
    (s.output ≠ .log_file_base → handle_sighup log_filename rc s = (s, [])) ∧
    (s.output = .log_file_base → ¬ rc < 0 →
      (handle_sighup log_filename rc s).1 =
        { output := .log_file_base
          log_file := .created log_filename [.O_CREAT, .O_WRONLY, .O_APPEND] 0o644 } ∧
      (handle_sighup log_filename rc s).2 =
        [.call .log_set_output [.sym "log_stderr_output"] none,
         .call .file_destroy [.sym "_log_file"] none,
         .call .file_create [.sym "_log_file", .str log_filename,
            .sym "O_CREAT | O_WRONLY | O_APPEND", .int 0o644] (some rc),
         .call .log_set_output [.sym "_log_file.base"] none,
         .log_info "Reopened log file '%s'" [.str log_filename]]) ∧
    (s.output = .log_file_base → rc < 0 →
      (handle_sighup log_filename rc s).1 =
        { output := .log_stderr_output, log_file := .destroyed } ∧
      (handle_sighup log_filename rc s).2 =
        [.call .log_set_output [.sym "log_stderr_output"] none,
         .call .file_destroy [.sym "_log_file"] none,
         .call .file_create [.sym "_log_file", .str log_filename,
            .sym "O_CREAT | O_WRONLY | O_APPEND", .int 0o644] (some rc),
         .log_error "Could not reopen log file '%s': %s (%d)"
           [.str log_filename, .errno_name, .errno]]) ∧
    ((handle_sighup log_filename rc s).1.output = .log_file_base →
      s.output = .log_file_base ∧
      (handle_sighup log_filename rc s).1.log_file =
        .created log_filename [.O_CREAT, .O_WRONLY, .O_APPEND] 0o644) := by
  refine ⟨?_, ?_, ?_, ?_⟩
  · intro h
    simp [handle_sighup, h]
  · intro h hrc
    simp [handle_sighup, h, hrc]
  · intro h hrc
    simp [handle_sighup, h, hrc]
  · intro h
    by_cases h1 : s.output = .log_file_base
    · by_cases h2 : rc < 0
      · simp [handle_sighup, h1, h2] at h
      · simp [handle_sighup, h1, h2]
    · simp [handle_sighup, h1] at h

theorem handle_sighup_reopens_witness :
    (handle_sighup "/var/log/brickd.log" (-1)
        { output := .log_file_base
          log_file := .created "/var/log/brickd.log" [.O_CREAT, .O_WRONLY, .O_TRUNC]
            0o644 }).1 =
      { output := .log_stderr_output, log_file := .destroyed } :=
  ((handle_sighup_reopens "/var/log/brickd.log" (-1)
      { output := .log_file_base
        log_file := .created "/var/log/brickd.log" [.O_CREAT, .O_WRONLY, .O_TRUNC]
          0o644 }).2.2.1 rfl (by decide)).1


/-! ### Idempotence of `prepare_paths` -/

theorem robust_snprintf_ok (n : Nat) (x : String) (h : ¬ (robust_snprintf n x).1 < 0) :
    (robust_snprintf n x).2 = x := by
  unfold robust_snprintf at h ⊢
  split_ifs at h ⊢
  · rfl
  · simp at h

theorem prepare_paths_twice (env : Env) (paths : Paths)
    (h : (prepare_paths env paths).rc = 0) :
    (prepare_paths_again env paths).rc = 0 ∧
    (prepare_paths_again env paths).paths = (prepare_paths env paths).paths ∧
    (prepare_paths_again env paths).fs = (prepare_paths env paths).fs ∧
    0 ∉ (prepare_paths_again env paths).trace.filterMap (result_of .mkdir) ∧
    ((prepare_paths env paths).trace.filterMap (result_of .mkdir)).count 0 ≤ 1 ∧
    (∀ p q, (prepare_paths env paths).fs p ≠ env.fs p →
      (prepare_paths env paths).fs q ≠ env.fs q → p = q) := by
  by_cases hu : env.uid = 0
  · simp [prepare_paths_again, prepare_paths, hu]
  cases hh : resolve_home env with
  | none => simp [prepare_paths, hu, hh] at h
  | some home =>
    have hh2 : ∀ fs, resolve_home { env with fs := fs } = some home := fun fs => hh
    by_cases h1 : (robust_snprintf 1024 (home ++ "/.brickd")).1 < 0
    · simp [prepare_paths, hu, hh, h1] at h
    by_cases h2 : (robust_snprintf 1024 (home ++ "/.brickd/brickd.conf")).1 < 0
    · simp [prepare_paths, hu, hh, h1, h2] at h
    by_cases h3 : (robust_snprintf 1024 (home ++ "/.brickd/brickd.pid")).1 < 0
    · simp [prepare_paths, hu, hh, h1, h2, h3] at h
    by_cases h4 : (robust_snprintf 1024 (home ++ "/.brickd/brickd.log")).1 < 0
    · simp [prepare_paths, hu, hh, h1, h2, h3, h4] at h
    have e1 := robust_snprintf_ok _ _ h1
    cases hf : env.fs (home ++ "/.brickd") with
    | absent =>
      simp [prepare_paths_again, prepare_paths, hu, hh, hh2, h1, h2, h3, h4, e1, mkdir, stat,
        hf, result_of, EEXIST]
      intro p q hp _ hq _
      rw [hp, hq]
    | uncreatable e =>
      by_cases he : e = EEXIST
      · simp [prepare_paths, hu, hh, h1, h2, h3, h4, e1, mkdir, stat, hf, he] at h
      · simp [prepare_paths, hu, hh, h1, h2, h3, h4, e1, mkdir, stat, hf, he] at h
    | dir =>
      simp [prepare_paths_again, prepare_paths, hu, hh, hh2, h1, h2, h3, h4, e1, mkdir, stat,
        hf, result_of, EEXIST]
    | nondir =>
      simp [prepare_paths, hu, hh, h1, h2, h3, h4, e1, mkdir, stat, hf, EEXIST] at h
    | nostat e =>
      simp [prepare_paths, hu, hh, h1, h2, h3, h4, e1, mkdir, stat, hf, EEXIST] at h

/-- C9 (amended): `prepare_paths` is idempotent: in every environment in which a first
call succeeds, a second call with the environment otherwise unchanged also succeeds,
leaves the three paths as the first call set them, leaves the file system unchanged and
makes no successful `mkdir`; the first call makes at most one successful `mkdir` and
changes the file system at no more than one path.  For a user other than root, an
existing `~/.brickd` that is not a directory makes the call return -1.  For user id 0
the call returns 0 without looking at `~/.brickd`: it performs no event at all (no
`mkdir`, no `stat`, no message) and leaves the paths and the file system as they are,
whatever the file system holds. -/
theorem prepare_paths_idempotent (env : Env) (paths : Paths) (home : String) :
    ((prepare_paths env paths).rc = 0 →
      (prepare_paths_again env paths).rc = 0 ∧
      (prepare_paths_again env paths).paths = (prepare_paths env paths).paths ∧
      (prepare_paths_again env paths).fs = (prepare_paths env paths).fs ∧
      0 ∉ (prepare_paths_again env paths).trace.filterMap (result_of .mkdir) ∧
      ((prepare_paths env paths).trace.filterMap (result_of .mkdir)).count 0 ≤ 1 ∧
      (∀ p q, (prepare_paths env paths).fs p ≠ env.fs p →
        (prepare_paths env paths).fs q ≠ env.fs q → p = q)) ∧
    (env.uid ≠ 0 → resolve_home env = some home →
      env.fs (home ++ "/.brickd") = .nondir → (prepare_paths env paths).rc = -1) ∧
    (env.uid = 0 →
      (prepare_paths env paths).rc = 0 ∧
      (prepare_paths env paths).trace = [] ∧
      (prepare_paths env paths).paths = paths ∧
      (prepare_paths env paths).fs = env.fs) := by
  refine ⟨prepare_paths_twice env paths, ?_, ?_⟩
  rotate_left
  · intro hu
    simp [prepare_paths, hu]
  intro hu hh hf
  by_cases h1 : (robust_snprintf 1024 (home ++ "/.brickd")).1 < 0
  · simp [prepare_paths, hu, hh, h1]
  by_cases h2 : (robust_snprintf 1024 (home ++ "/.brickd/brickd.conf")).1 < 0
  · simp [prepare_paths, hu, hh, h1, h2]
  by_cases h3 : (robust_snprintf 1024 (home ++ "/.brickd/brickd.pid")).1 < 0
  · simp [prepare_paths, hu, hh, h1, h2, h3]
  by_cases h4 : (robust_snprintf 1024 (home ++ "/.brickd/brickd.log")).1 < 0
  · simp [prepare_paths, hu, hh, h1, h2, h3, h4]
  have e1 := robust_snprintf_ok _ _ h1
  simp [prepare_paths, hu, hh, h1, h2, h3, h4, e1, mkdir, stat, hf, EEXIST]

theorem prepare_paths_idempotent_witness :
    (prepare_paths user_env (initial_paths sample_consts)).rc = 0 ∧
    (prepare_paths_again user_env (initial_paths sample_consts)).rc = 0 ∧
    (prepare_paths_again user_env (initial_paths sample_consts)).fs =
      (prepare_paths user_env (initial_paths sample_consts)).fs := by
  have h0 : (prepare_paths user_env (initial_paths sample_consts)).rc = 0 := by
    simp [prepare_paths, user_env, resolve_home, robust_snprintf, mkdir]
    decide
  have h := (prepare_paths_idempotent user_env (initial_paths sample_consts) "/home/u").1 h0
  exact ⟨h0, h.1, h.2.2.1⟩

/-- C9 as stated fails for root: with a regular file at `/root/.brickd` the call
returns 0, because for user id 0 `prepare_paths` returns before looking at the home
directory. -/
theorem prepare_paths_root_ignores_file :
    root_env_with_file.fs "/root/.brickd" = .nondir ∧
    resolve_home root_env_with_file = some "/root" ∧
    (prepare_paths root_env_with_file (initial_paths sample_consts)).rc = 0 := by
  refine ⟨by simp [root_env_with_file], by simp [root_env_with_file, resolve_home], ?_⟩
  simp [prepare_paths, root_env_with_file]


end Brickd
